import Mathlib

set_option maxRecDepth 100000

/-!
# Verification of the book-organization AI proxy and client data model

This development embeds, in Lean, the JavaScript/TypeScript functions of the
repository that the specification's claims are about:

* the AI proxy's response normalization (`normalizeQuestions`, `normalizeGrades`)
  and model-output JSON extraction (`parseModelJson`) from `server/index.mjs`;
* the client-side persisted-blob repair function (`normalizeUserData`) from
  `src/app/data.ts`, together with its helpers from `src/app/utils.ts`;
* the pure state-update functions of the client app (book deletion cascade,
  question-generation merge, history push) from `src/App.tsx` and
  `src/app/hooks/use-ai-coach.ts`.

Untyped JavaScript values (parsed JSON, possibly-corrupted local-storage blobs)
are modelled by the inductive type `JVal`.  JavaScript strings are modelled as
`List Char` (JS `.length`/`.slice` count UTF-16 units; for the code at hand the
difference is immaterial and all concrete inputs are ASCII).  A JavaScript
function that can throw is modelled as returning `Option`, with `none` standing
for a thrown `TypeError`.
-/

/-- Model of a JavaScript runtime value (superset of parsed JSON). -/
inductive JVal where
  | null
  | undef
  | bool (b : Bool)
  | num (q : ℚ)
  | str (s : List Char)
  | arr (elems : List JVal)
  | obj (fields : List (String × JVal))

/-- Shorthand for building a `JVal` string from a Lean string literal. -/
def js (s : String) : JVal := .str s.data

mutual

/-- Structural (boolean) equality of `JVal`s. -/
def JVal.beq : JVal → JVal → Bool
  | .null, .null => true
  | .undef, .undef => true
  | .bool a, .bool b => a == b
  | .num a, .num b => a == b
  | .str a, .str b => a == b
  | .arr xs, .arr ys => JVal.beqList xs ys
  | .obj xs, .obj ys => JVal.beqFields xs ys
  | _, _ => false

/-- Elementwise equality of `JVal` lists. -/
def JVal.beqList : List JVal → List JVal → Bool
  | [], [] => true
  | x :: xs, y :: ys => JVal.beq x y && JVal.beqList xs ys
  | _, _ => false

/-- Elementwise equality of `JVal` field lists. -/
def JVal.beqFields : List (String × JVal) → List (String × JVal) → Bool
  | [], [] => true
  | (k, v) :: xs, (l, w) :: ys => k == l && JVal.beq v w && JVal.beqFields xs ys
  | _, _ => false

end

instance : DecidableEq JVal := fun a b =>
  decidable_of_iff (JVal.beq a b = true) (by
    have H : ∀ n, ∀ a b : JVal, sizeOf a ≤ n → (JVal.beq a b = true ↔ a = b) := by
      intro n
      induction n with
      | zero =>
        intro a b h
        cases a <;> simp_all
      | succ n ih =>
        intro a b h
        cases a with
        | null => cases b <;> simp [JVal.beq]
        | undef => cases b <;> simp [JVal.beq]
        | bool x => cases b <;> simp [JVal.beq]
        | num x => cases b <;> simp [JVal.beq]
        | str x => cases b <;> simp [JVal.beq]
        | arr xs =>
          cases b with
          | arr ys =>
            simp only [JVal.beq, JVal.arr.injEq]
            have hxs : sizeOf xs ≤ n := by simp at h; omega
            clear h
            induction xs generalizing ys with
            | nil => cases ys <;> simp [JVal.beqList]
            | cons x xs ihl =>
              cases ys with
              | nil => simp [JVal.beqList]
              | cons y ys =>
                have hx : sizeOf x ≤ n := by simp at hxs; omega
                have hxs' : sizeOf xs ≤ n := by simp at hxs; omega
                simp [JVal.beqList, ih x y hx, ihl ys hxs']
          | null => simp [JVal.beq]
          | undef => simp [JVal.beq]
          | bool y => simp [JVal.beq]
          | num y => simp [JVal.beq]
          | str y => simp [JVal.beq]
          | obj ys => simp [JVal.beq]
        | obj xs =>
          cases b with
          | obj ys =>
            simp only [JVal.beq, JVal.obj.injEq]
            have hxs : sizeOf xs ≤ n := by simp at h; omega
            clear h
            induction xs generalizing ys with
            | nil => cases ys <;> simp [JVal.beqFields]
            | cons x xs ihl =>
              cases ys with
              | nil => simp [JVal.beqFields]
              | cons y ys =>
                obtain ⟨k, v⟩ := x
                obtain ⟨l, w⟩ := y
                have hv : sizeOf v ≤ n := by simp at hxs; omega
                have hxs' : sizeOf xs ≤ n := by simp at hxs; omega
                simp [JVal.beqFields, ih v w hv, ihl ys hxs', and_assoc]
          | null => simp [JVal.beq]
          | undef => simp [JVal.beq]
          | bool y => simp [JVal.beq]
          | num y => simp [JVal.beq]
          | str y => simp [JVal.beq]
          | arr ys => simp [JVal.beq]
    exact H (sizeOf a) a b le_rfl)

namespace JVal

/-- Property access `v.k` where `v` is known not to be `null`/`undefined`
(also models `v?.k`, which never throws): yields the field of an object,
`undefined` otherwise. -/
def getOpt (v : JVal) (k : String) : JVal :=
  match v with
  | .obj fields => (fields.lookup k).getD .undef
  | _ => JVal.undef

/-- Plain property access `v.k`: throws (`none`) on `null`/`undefined`,
otherwise behaves like `getOpt`. -/
def getStrict (v : JVal) (k : String) : Option JVal :=
  match v with
  | .null => none
  | .undef => none
  | v => some (v.getOpt k)

/-- JavaScript truthiness. -/
def truthy : JVal → Bool
  | .null => false
  | .undef => false
  | .bool b => b
  | .num q => decide (q ≠ 0)
  | .str s => decide (s ≠ [])
  | .arr _ => true
  | .obj _ => true

/-- `typeof v === "string"`. -/
def isString : JVal → Bool
  | .str _ => true
  | _ => false

/-- `typeof v === "object"` (true for `null`, arrays and objects). -/
def isObjectType : JVal → Bool
  | .null => true
  | .arr _ => true
  | .obj _ => true
  | _ => false

/-- `Array.isArray v` with the element list. -/
def asArray? : JVal → Option (List JVal)
  | .arr xs => some xs
  | _ => none

/-- The nullish-coalescing operator `v ?? d`. -/
def nullish (v d : JVal) : JVal :=
  match v with
  | .null => d
  | .undef => d
  | v => v

end JVal

/-- Membership in a JS `Set` built from the values `xs` (SameValueZero is
modelled as structural equality; all ids exercised by the claims are strings,
where the two coincide). -/
def jmem (x : JVal) (xs : List JVal) : Bool :=
  xs.any (fun y => decide (y = x))

/-- ASCII whitespace as recognised by JS `String.prototype.trim` and `\s`
(exotic Unicode space characters are not exercised by this code). -/
def isJsWs (c : Char) : Bool :=
  c = ' ' || c = '\t' || c = '\n' || c = '\r' || c = '\x0b' || c = '\x0c'

/-- JS `String.prototype.trim`. -/
def jsTrim (s : List Char) : List Char :=
  ((s.dropWhile isJsWs).reverse.dropWhile isJsWs).reverse

/-- Decimal integer parsing, the fragment of JS string-to-number conversion the
code relies on. -/
def parseNatChars (cs : List Char) : Option Nat :=
  if cs ≠ [] ∧ cs.all Char.isDigit then
    some (cs.foldl (fun a c => a * 10 + (c.toNat - 48)) 0)
  else none

/-- `Number(s)` for a string `s`: empty/whitespace-only is `0`, decimal integer
literals parse, anything else is modelled as `NaN` (`none`).  (JS also accepts
decimal fractions, exponents and hex literals; no claim depends on those and the
surrounding code only ever feeds the result to round-and-clamp, so narrowing the
accepted grammar cannot affect the stated properties.) -/
def strToNumber (s : List Char) : Option ℚ :=
  let t := jsTrim s
  if t = [] then some 0
  else
    match t with
    | '-' :: rest => (parseNatChars rest).map (fun n => -(n : ℚ))
    | _ => (parseNatChars t).map (fun n => (n : ℚ))

/-- `Number(v)`: the JS ToNumber coercion, with `none` standing for `NaN`
(array/object coercion is modelled as `NaN`; the code under verification never
relies on it). -/
def jsToNumber : JVal → Option ℚ
  | .num q => some q
  | .null => some 0
  | .undef => none
  | .bool b => some (if b then 1 else 0)
  | .str s => strToNumber s
  | .arr _ => none
  | .obj _ => none

/-- `Math.round`: half-up, towards positive infinity, i.e. `⌊q + 1/2⌋`,
written as a Euclidean division (the divisor is positive, so this is the
floor) so that it evaluates by kernel reduction. -/
def jsRound (q : ℚ) : ℤ := (2 * q.num + q.den) / (2 * q.den)

/-- `Math.min` on two integers. -/
def jsMinI (a b : ℤ) : ℤ := if a ≤ b then a else b

/-- `Math.max` on two integers. -/
def jsMaxI (a b : ℤ) : ℤ := if a ≤ b then b else a

/-! ## Server: `server/index.mjs` helpers -/

/-- `toInt(value, fallback)` from `server/index.mjs`: `Number`, `NaN`/infinite
falls back, otherwise `Math.round`. -/
def toInt (value : JVal) (fallback : ℤ) : ℤ :=
  match jsToNumber value with
  | none => fallback
  | some q => jsRound q

/-- `clampText(value, maxLen)` from `server/index.mjs`: non-strings become `""`,
strings are trimmed and truncated to `maxLen`. -/
def clampText (value : JVal) (maxLen : ℕ) : List Char :=
  match value with
  | .str s =>
    let out := jsTrim s
    if out.length > maxLen then out.take maxLen else out
  | _ => []

/-- One normalized question of a generate-questions response. -/
structure GenQuestion where
  id : List Char
  question : List Char
  rubric : List Char
deriving DecidableEq

/-- The synthetic id `q<n>` assigned by `normalizeQuestions`. -/
def synthId (n : ℕ) : List Char := 'q' :: (Nat.repr n).data

/-- The id selection of the `normalizeQuestions` loop: an empty or
already-used id is replaced by the synthetic id `q<out.length + 1>`. -/
def chooseId (usedIds : List (List Char)) (outLen : ℕ) (id0 : List Char) : List Char :=
  if id0 = [] ∨ usedIds.contains id0 then synthId (outLen + 1) else id0

/-- The `for` loop of `normalizeQuestions`: `out` and `usedIds` accumulate in
order; the loop breaks as soon as `out` reaches `expectedCount`. -/
def normQLoop (expectedCount : ℕ) :
    List JVal → List GenQuestion → List (List Char) → List GenQuestion
  | [], out, _ => out
  | row :: rest, out, usedIds =>
    if out.length ≥ expectedCount then out
    else if clampText (row.getOpt "question") 500 = [] then
      normQLoop expectedCount rest out usedIds
    else
      normQLoop expectedCount rest
        (out ++ [⟨chooseId usedIds out.length (clampText (row.getOpt "id") 120),
                  clampText (row.getOpt "question") 500,
                  clampText (row.getOpt "rubric") 2000⟩])
        (usedIds ++ [chooseId usedIds out.length (clampText (row.getOpt "id") 120)])

/-- `normalizeQuestions(parsed, expectedCount)` from `server/index.mjs`. -/
def normalizeQuestions (parsed : JVal) (expectedCount : ℕ) : List GenQuestion :=
  let rows := ((parsed.getOpt "questions").asArray?).getD []
  normQLoop expectedCount rows [] []

/-- One entry of a grading request's `answers` list, as produced by
`parseGradeRequest` (all fields are strings). -/
structure GradeAnswer where
  questionId : List Char
  question : List Char
  studentAnswer : List Char
deriving DecidableEq

/-- An intermediate row built by the loop of `normalizeGrades`. -/
structure GradeRowFull where
  questionId : List Char
  score : ℤ
  feedback : List Char
  idealAnswer : List Char
  question : List Char
  studentAnswer : List Char
deriving DecidableEq

/-- One row of a normalized grading response. -/
structure GradeRow where
  questionId : List Char
  score : ℤ
  feedback : List Char
  idealAnswer : List Char
deriving DecidableEq

/-- Lookup in `answerById = new Map(answers.map(row => [row.questionId, row]))`:
a JS `Map` built from a list keeps the **last** binding of a duplicated key. -/
def answerById (answers : List GradeAnswer) (qid : List Char) : Option GradeAnswer :=
  answers.reverse.find? (fun a => a.questionId = qid)

/-- One iteration of the `normalizeGrades` loop: `none` models `continue`
(empty or unmatched `questionId`). -/
def normGRow (answers : List GradeAnswer) (row : JVal) : Option GradeRowFull :=
  let questionId := clampText (row.getOpt "questionId") 120
  match if questionId = [] then none else answerById answers questionId with
  | none => none
  | some answer =>
    some
      { questionId := questionId
        score := jsMaxI 0 (jsMinI 100 (toInt (row.getOpt "score") 0))
        feedback := clampText (row.getOpt "feedback") 2000
        idealAnswer := clampText (row.getOpt "idealAnswer") 2000
        question := answer.question
        studentAnswer := answer.studentAnswer }

/-- The `for` loop of `normalizeGrades`. -/
def normGLoop (answers : List GradeAnswer) : List JVal → List GradeRowFull
  | [] => []
  | row :: rest =>
    match normGRow answers row with
    | none => normGLoop answers rest
    | some r => r :: normGLoop answers rest

/-- `normalizeGrades(parsed, answers)` from `server/index.mjs`: build the rich
rows, then project away the `question`/`studentAnswer` fields. -/
def normalizeGrades (parsed : JVal) (answers : List GradeAnswer) : List GradeRow :=
  let rows := ((parsed.getOpt "results").asArray?).getD []
  (normGLoop answers rows).map (fun r =>
    { questionId := r.questionId
      score := r.score
      feedback := r.feedback
      idealAnswer := r.idealAnswer })

/-! ## Server: `parseModelJson` -/

/-- The three-backtick fence delimiter. -/
def ticks : List Char := "```".data

/-- Split a character list at the first occurrence of ` ``` `, returning the
text before it and the text after it. -/
def splitTicks : List Char → Option (List Char × List Char)
  | [] => none
  | c :: rest =>
    if ticks.isPrefixOf (c :: rest) then some ([], rest.drop 2)
    else (splitTicks rest).map (fun p => (c :: p.1, p.2))

/-- Drop a case-insensitive `json` tag, as matched by the `(?:json)?` group of
the fence regex. -/
def stripJsonCI (cs : List Char) : List Char :=
  if (cs.take 4).map Char.toLower = "json".data then cs.drop 4 else cs

/-- The capture of `text.match(/```(?:json)?\s*([\s\S]*?)```/i)`, pushed as an
attempt only when non-empty (then `.trim()`ed): the regex matches at the first
fence provided a closing fence follows; the optional `json` tag and the greedy
`\s*` are consumed before the lazy capture, which extends to the next fence. -/
def fencedAttempt (text : List Char) : Option (List Char) :=
  match splitTicks text with
  | none => none
  | some (_, rest1) =>
    match splitTicks rest1 with
    | none => none
    | some (inner, _) =>
      let cap := (stripJsonCI inner).dropWhile isJsWs
      if cap = [] then none else some (jsTrim cap)

/-- The substring from the first `{` to the last `}` (inclusive), when the
first `{` occurs strictly before the last `}`. -/
def braceAttempt (cs : List Char) : Option (List Char) :=
  match cs.findIdx? (fun c => c == '{') with
  | none => none
  | some first =>
    match cs.reverse.findIdx? (fun c => c == '}') with
    | none => none
    | some ridx =>
      let last := cs.length - 1 - ridx
      if first < last then some ((cs.drop first).take (last + 1 - first)) else none

/-- The candidate list built by `parseModelJson`: the (clamped) text as-is,
then the fenced-block capture when present, then the brace substring when
present. -/
def attempts (content : List Char) : List (List Char) :=
  let text := clampText (.str content) 25000
  [text] ++ (fencedAttempt text).toList ++ (braceAttempt text).toList

/-- The `for` loop of `parseModelJson`: return the first candidate that
`JSON.parse` accepts, else throw `HttpError(502, ...)`. -/
def tryCandidates (p : List Char → Option JVal) :
    List (List Char) → Except (ℕ × String) JVal
  | [] => .error (502, "Provider did not return valid JSON.")
  | c :: rest =>
    match p c with
    | some v => .ok v
    | none => tryCandidates p rest

/-- `parseModelJson(content)` from `server/index.mjs`, parameterized by the
JSON parser `p` (modelling `JSON.parse`, which returns `none` on a parse
error). -/
def parseModelJson (p : List Char → Option JVal) (content : List Char) :
    Except (ℕ × String) JVal :=
  tryCandidates p (attempts content)

/-! ## Client: typed state model (`src/app/types.ts`)

The client keeps its in-memory state well-typed; the pure state-update
functions of `App.tsx` and `use-ai-coach.ts` are modelled over these
structures. -/

/-- `BookStatus` from `types.ts`. -/
inductive BookStatus where
  | in_progress
  | completed
  | abandoned
deriving DecidableEq

/-- `Book` from `types.ts`. -/
structure Book where
  id : String
  title : String
  author : String
  genre : Option String := none
  coverDataUrl : Option String := none
  status : BookStatus := .in_progress
  startedAt : Option String := none
  finishedAt : Option String := none
  createdAt : String := ""
  updatedAt : String := ""
deriving DecidableEq

/-- `ChapterEntry` from `types.ts`. -/
structure ChapterEntry where
  id : String
  bookId : String
  number : Option ℤ := none
  title : Option String := none
  completedAt : Option String := none
  summary : String := ""
  takeaways : String := ""
  quotes : String := ""
  reflection : String := ""
  createdAt : String := ""
  updatedAt : String := ""
deriving DecidableEq

/-- `QA` from `types.ts`. -/
structure QA where
  id : String
  chapterId : String
  question : String := ""
  answer : String := ""
  createdAt : String := ""
  updatedAt : String := ""
deriving DecidableEq

/-- `HistoryEventType` from `types.ts`. -/
inductive HistoryEventType where
  | book_created
  | book_updated
  | book_deleted
  | chapter_created
  | chapter_updated
  | chapter_deleted
  | qa_created
  | qa_updated
  | qa_deleted
  | ai_questions_generated
  | ai_answers_graded
  | export
deriving DecidableEq

/-- `HistoryEvent` from `types.ts`. -/
structure HistoryEvent where
  id : String
  type : HistoryEventType
  ts : String := ""
  userId : String := ""
  bookId : Option String := none
  chapterId : Option String := none
  qaId : Option String := none
  label : String := ""
  meta : Option (List (String × String)) := none
deriving DecidableEq

/-- `AIDifficulty` from `types.ts`. -/
inductive AIDifficulty where
  | easy
  | medium
  | hard
  | mixed
deriving DecidableEq

/-- `AIQuestionStyle` from `types.ts`. -/
inductive AIQuestionStyle where
  | comprehension
  | critical_thinking
  | mixed
deriving DecidableEq

/-- `AICoachConfig` from `types.ts`. -/
structure AICoachConfig where
  count : ℤ
  difficulty : AIDifficulty
  style : AIQuestionStyle
deriving DecidableEq

/-- `AIGeneratedQuestion` from `types.ts`. -/
structure AIGeneratedQuestion where
  id : String
  chapterId : String
  question : String := ""
  rubric : String := ""
  createdAt : String := ""
  difficulty : AIDifficulty := .mixed
  style : AIQuestionStyle := .comprehension
deriving DecidableEq

/-- `AIDraftAnswer` from `types.ts`. -/
structure AIDraftAnswer where
  chapterId : String
  questionId : String
  answer : String := ""
  updatedAt : String := ""
deriving DecidableEq

/-- `AIGradeResult` from `types.ts`. -/
structure AIGradeResult where
  questionId : String
  question : String := ""
  studentAnswer : String := ""
  score : ℤ := 0
  feedback : String := ""
  idealAnswer : String := ""
deriving DecidableEq

/-- `AIFeedbackEntry` from `types.ts`. -/
structure AIFeedbackEntry where
  id : String
  bookId : String
  chapterId : String
  createdAt : String := ""
  difficulty : AIDifficulty := .mixed
  style : AIQuestionStyle := .comprehension
  averageScore : ℤ := 0
  results : List AIGradeResult := []
deriving DecidableEq

/-- `AICoachData` from `types.ts`. -/
structure AICoachData where
  selectedBookId : Option String := none
  selectedChapterId : Option String := none
  lastConfig : AICoachConfig := ⟨6, .mixed, .comprehension⟩
  generatedQuestions : List AIGeneratedQuestion := []
  draftAnswers : List AIDraftAnswer := []
  feedbackHistory : List AIFeedbackEntry := []
deriving DecidableEq

/-- `UserData` from `types.ts`. -/
structure UserData where
  books : List Book := []
  chapters : List ChapterEntry := []
  qas : List QA := []
  history : List HistoryEvent := []
  aiCoach : AICoachData := {}
deriving DecidableEq

/-! ## Client: pure state updates -/

/-- The state replacement performed by the delete-book `onConfirm` handler in
`App.tsx` (the `setData` updater, lines 313–332). -/
def deleteBookUpdate (bookId : String) (d : UserData) : UserData :=
  let chaptersToDelete := (d.chapters.filter (fun c => c.bookId == bookId)).map ChapterEntry.id
  { d with
    books := d.books.filter (fun x => !(x.id == bookId))
    chapters := d.chapters.filter (fun c => !(c.bookId == bookId))
    qas := d.qas.filter (fun qa => !(chaptersToDelete.contains qa.chapterId))
    aiCoach := { d.aiCoach with
      selectedBookId :=
        if d.aiCoach.selectedBookId = some bookId then none else d.aiCoach.selectedBookId
      selectedChapterId :=
        if chaptersToDelete.contains (d.aiCoach.selectedChapterId.getD "") then none
        else d.aiCoach.selectedChapterId
      generatedQuestions :=
        d.aiCoach.generatedQuestions.filter (fun q => !(chaptersToDelete.contains q.chapterId))
      draftAnswers :=
        d.aiCoach.draftAnswers.filter (fun a => !(chaptersToDelete.contains a.chapterId))
      feedbackHistory :=
        d.aiCoach.feedbackHistory.filter (fun e => !(chaptersToDelete.contains e.chapterId)) } }

/-- The state replacement performed by `generateAIQuestions` on success
(`use-ai-coach.ts`, lines 245–257): `normalized` is the freshly normalized
question list (each entry carries the selected chapter's id). -/
def generateSuccessUpdate (bookId chapterId : String)
    (normalized : List AIGeneratedQuestion) (prev : UserData) : UserData :=
  { prev with
    aiCoach := { prev.aiCoach with
      selectedBookId := some bookId
      selectedChapterId := some chapterId
      generatedQuestions :=
        normalized ++ prev.aiCoach.generatedQuestions.filter (fun q => !(q.chapterId == chapterId))
      draftAnswers :=
        prev.aiCoach.draftAnswers.filter (fun a => !(a.chapterId == chapterId)) } }

/-- The state replacement performed by `pushHistory` in `App.tsx` (lines
126–129): prepend the new event and keep the first 2000 entries. -/
def pushHistoryUpdate (nextEvent : HistoryEvent) (d : UserData) : UserData :=
  { d with history := (nextEvent :: d.history).take 2000 }

/-! ## Client: `normalizeUserData` (`src/app/data.ts`)

The persisted blob is untyped, so this function is embedded over `JVal`.
`none` models a thrown `TypeError`.  The impure `nowISO()` is passed in as the
`now` parameter (it only ever fills missing timestamp fields). -/

/-- `clampStr(s, max)` from `src/app/utils.ts`.  Falsy values become `""`;
values with a `.length` greater than `max` are `.slice(0, max)`ed (this also
covers arrays); other values are returned unchanged (their `.length` is
`undefined`, and `undefined > max` is false). -/
def clampStr (s : JVal) (maxLen : ℕ) : JVal :=
  if !s.truthy then js ""
  else
    match s with
    | .str cs => if cs.length > maxLen then .str (cs.take maxLen) else .str cs
    | .arr xs => if xs.length > maxLen then .arr (xs.take maxLen) else .arr xs
    | other => other

/-- `clampInt(value, min, max, fallback)` from `src/app/utils.ts`. -/
def clampInt (value : JVal) (mn mx fallback : ℤ) : ℤ :=
  match jsToNumber value with
  | none => fallback
  | some q => jsMinI mx (jsMaxI mn (jsRound q))

/-- `isAIDifficulty` from `src/app/data.ts`. -/
def isAIDifficulty (v : JVal) : Bool :=
  decide (v = js "easy") || decide (v = js "medium") || decide (v = js "hard") ||
    decide (v = js "mixed")

/-- `isAIQuestionStyle` from `src/app/data.ts`. -/
def isAIQuestionStyle (v : JVal) : Bool :=
  decide (v = js "comprehension") || decide (v = js "critical_thinking") ||
    decide (v = js "mixed")

/-- `isKnownHistoryType` from `src/app/data.ts`. -/
def isKnownHistoryType (v : JVal) : Bool :=
  decide (v = js "book_created") || decide (v = js "book_updated") ||
    decide (v = js "book_deleted") || decide (v = js "chapter_created") ||
    decide (v = js "chapter_updated") || decide (v = js "chapter_deleted") ||
    decide (v = js "qa_created") || decide (v = js "qa_updated") ||
    decide (v = js "qa_deleted") || decide (v = js "ai_questions_generated") ||
    decide (v = js "ai_answers_graded") || decide (v = js "export")

/-- The characters of a `JVal` string (only applied under an `isString`
guard). -/
def JVal.strVal : JVal → List Char
  | .str s => s
  | _ => []

/-- `Array.prototype.filter` with a predicate that can throw. -/
def filterJ (p : JVal → Option Bool) : List JVal → Option (List JVal)
  | [] => some []
  | x :: xs => do
    let b ← p x
    let rest ← filterJ p xs
    pure (if b then x :: rest else rest)

/-- `xs.map(x => x.id)` — throws on `null`/`undefined` elements. -/
def idsOf (xs : List JVal) : Option (List JVal) :=
  xs.mapM (fun b => b.getStrict "id")

/-- `Array.isArray(raw?.books) ? raw.books : []`. -/
def booksOf (raw : JVal) : List JVal :=
  ((raw.getOpt "books").asArray?).getD []

/-- `Array.isArray(raw?.chapters) ? raw.chapters.filter((ch) =>
bookIds.has(ch.bookId)) : []`. -/
def chaptersOf (raw : JVal) (bookIds : List JVal) : Option (List JVal) :=
  match (raw.getOpt "chapters").asArray? with
  | some xs => filterJ (fun ch => (ch.getStrict "bookId").map (fun b => jmem b bookIds)) xs
  | none => some []

/-- The `qas` filter of `normalizeUserData`. -/
def qasOf (raw : JVal) (chapterIds : List JVal) : Option (List JVal) :=
  match (raw.getOpt "qas").asArray? with
  | some xs => filterJ (fun qa => (qa.getStrict "chapterId").map (fun c => jmem c chapterIds)) xs
  | none => some []

/-- The `history` filter of `normalizeUserData` (total: every access is behind
the `!!entry` guard). -/
def historyOf (raw : JVal) : List JVal :=
  match (raw.getOpt "history").asArray? with
  | some xs => xs.filter (fun e => e.truthy && e.isObjectType && isKnownHistoryType (e.getOpt "type"))
  | none => []

/-- The `generatedQuestions` entry filter. -/
def genQPred (chapterIds : List JVal) (q : JVal) : Bool :=
  q.truthy && (q.getOpt "id").isString && (q.getOpt "chapterId").isString &&
    jmem (q.getOpt "chapterId") chapterIds && (q.getOpt "question").isString &&
    decide (jsTrim (q.getOpt "question").strVal ≠ [])

/-- The `generatedQuestions` entry rebuild. -/
def genQBuild (now : List Char) (q : JVal) : JVal :=
  .obj [("id", q.getOpt "id"),
        ("chapterId", q.getOpt "chapterId"),
        ("question", clampStr (q.getOpt "question") 500),
        ("rubric", clampStr ((q.getOpt "rubric").nullish (js "")) 2000),
        ("createdAt", (q.getOpt "createdAt").nullish (.str now)),
        ("difficulty",
          if isAIDifficulty (q.getOpt "difficulty") then q.getOpt "difficulty" else js "mixed"),
        ("style",
          if isAIQuestionStyle (q.getOpt "style") then q.getOpt "style" else js "comprehension")]

/-- The `generatedQuestions` section of `normalizeUserData`. -/
def genQsOf (now : List Char) (aiCoachRaw : JVal) (chapterIds : List JVal) : List JVal :=
  match (aiCoachRaw.getOpt "generatedQuestions").asArray? with
  | some xs => (xs.filter (genQPred chapterIds)).map (genQBuild now)
  | none => []

/-- The `draftAnswers` entry filter. -/
def draftPred (chapterIds generatedQuestionIds : List JVal) (a : JVal) : Bool :=
  a.truthy && (a.getOpt "chapterId").isString && jmem (a.getOpt "chapterId") chapterIds &&
    (a.getOpt "questionId").isString && jmem (a.getOpt "questionId") generatedQuestionIds &&
    (a.getOpt "answer").isString && decide (jsTrim (a.getOpt "answer").strVal ≠ [])

/-- The `draftAnswers` entry rebuild. -/
def draftBuild (now : List Char) (a : JVal) : JVal :=
  .obj [("chapterId", a.getOpt "chapterId"),
        ("questionId", a.getOpt "questionId"),
        ("answer", clampStr (a.getOpt "answer") 10000),
        ("updatedAt", (a.getOpt "updatedAt").nullish (.str now))]

/-- The `draftAnswers` section of `normalizeUserData`. -/
def draftsOf (now : List Char) (aiCoachRaw : JVal)
    (chapterIds generatedQuestionIds : List JVal) : List JVal :=
  match (aiCoachRaw.getOpt "draftAnswers").asArray? with
  | some xs => (xs.filter (draftPred chapterIds generatedQuestionIds)).map (draftBuild now)
  | none => []

/-- The `feedbackHistory` entry filter. -/
def feedbackPred (bookIds chapterIds : List JVal) (e : JVal) : Bool :=
  e.truthy && (e.getOpt "id").isString && (e.getOpt "bookId").isString &&
    jmem (e.getOpt "bookId") bookIds && (e.getOpt "chapterId").isString &&
    jmem (e.getOpt "chapterId") chapterIds && ((e.getOpt "results").asArray?).isSome

/-- One `results` row filter inside a feedback entry. -/
def gradeResultPred (r : JVal) : Bool :=
  r.truthy && (r.getOpt "questionId").isString && (r.getOpt "question").isString &&
    (r.getOpt "studentAnswer").isString

/-- One `results` row rebuild inside a feedback entry. -/
def gradeResultBuild (r : JVal) : JVal :=
  .obj [("questionId", r.getOpt "questionId"),
        ("question", clampStr (r.getOpt "question") 500),
        ("studentAnswer", clampStr (r.getOpt "studentAnswer") 10000),
        ("score", .num (clampInt (r.getOpt "score") 0 100 0 : ℤ)),
        ("feedback", clampStr ((r.getOpt "feedback").nullish (js "")) 2000),
        ("idealAnswer", clampStr ((r.getOpt "idealAnswer").nullish (js "")) 2000)]

/-- The `feedbackHistory` entry rebuild. -/
def feedbackBuild (now : List Char) (e : JVal) : JVal :=
  .obj [("id", e.getOpt "id"),
        ("bookId", e.getOpt "bookId"),
        ("chapterId", e.getOpt "chapterId"),
        ("createdAt", (e.getOpt "createdAt").nullish (.str now)),
        ("difficulty",
          if isAIDifficulty (e.getOpt "difficulty") then e.getOpt "difficulty" else js "mixed"),
        ("style",
          if isAIQuestionStyle (e.getOpt "style") then e.getOpt "style" else js "comprehension"),
        ("averageScore", .num (clampInt (e.getOpt "averageScore") 0 100 0 : ℤ)),
        ("results",
          .arr ((((e.getOpt "results").asArray?).getD []).filter gradeResultPred
            |>.map gradeResultBuild))]

/-- The `feedbackHistory` section of `normalizeUserData` (filter, rebuild, drop
entries with no surviving results, keep the first 500). -/
def feedbackOf (now : List Char) (aiCoachRaw : JVal) (bookIds chapterIds : List JVal) :
    List JVal :=
  match (aiCoachRaw.getOpt "feedbackHistory").asArray? with
  | some xs =>
    ((xs.filter (feedbackPred bookIds chapterIds)).map (feedbackBuild now)).filter
      (fun e => decide ((((e.getOpt "results").asArray?).getD []).length > 0))
      |>.take 500
  | none => []

/-- The recomputed `selectedBookId`:
`typeof aiCoachRaw?.selectedBookId === "string" && bookIds.has(...) ? ... :
undefined`. -/
def selBookOf (air : JVal) (bookIds : List JVal) : JVal :=
  if (air.getOpt "selectedBookId").isString && jmem (air.getOpt "selectedBookId") bookIds then
    air.getOpt "selectedBookId"
  else JVal.undef

/-- `selectedChapterIdRaw`: the stored pointer when it is a string, else
`undefined`. -/
def selChapRawOf (air : JVal) : JVal :=
  if (air.getOpt "selectedChapterId").isString then air.getOpt "selectedChapterId"
  else JVal.undef

/-- The recomputed `selectedChapterId`: the stored pointer when it identifies
a retained chapter of the selected book, else the first retained chapter of
the selected book, else `undefined`.  The retained `chapters` passed the
`ch.bookId` access in their filter, so they are not `null`/`undefined` and the
plain accesses here cannot throw. -/
def selChapOf (air : JVal) (bookIds chapters : List JVal) : JVal :=
  if (selBookOf air bookIds).truthy && (selChapRawOf air).truthy &&
      chapters.any (fun ch =>
        decide (ch.getOpt "bookId" = selBookOf air bookIds) &&
          decide (ch.getOpt "id" = selChapRawOf air)) then
    selChapRawOf air
  else if (selBookOf air bookIds).truthy then
    match chapters.find? (fun ch => decide (ch.getOpt "bookId" = selBookOf air bookIds)) with
    | some ch => ch.getOpt "id"
    | none => .undef
  else JVal.undef

/-- The recomputed `selectedBookId` / `selectedChapterId` pointers. -/
def selectedOf (aiCoachRaw : JVal) (bookIds : List JVal) (chapters : List JVal) :
    JVal × JVal :=
  (selBookOf aiCoachRaw bookIds, selChapOf aiCoachRaw bookIds chapters)

/-- The rebuilt `lastConfig`. -/
def lastConfigOf (aiCoachRaw : JVal) : JVal :=
  let lastConfigRaw := (aiCoachRaw.getOpt "lastConfig").nullish (.obj [])
  .obj [("count", .num (clampInt (lastConfigRaw.getOpt "count") 1 15 6 : ℤ)),
        ("difficulty",
          if isAIDifficulty (lastConfigRaw.getOpt "difficulty") then
            lastConfigRaw.getOpt "difficulty"
          else js "mixed"),
        ("style",
          if isAIQuestionStyle (lastConfigRaw.getOpt "style") then lastConfigRaw.getOpt "style"
          else js "comprehension")]

/-- The object literal returned by `normalizeUserData`, with its fields in
source order. -/
def assembleOutput (books chapters qas history : List JVal)
    (selectedBookId selectedChapterId lastConfig : JVal)
    (generatedQuestions draftAnswers feedbackHistory : List JVal) : JVal :=
  .obj
    [("books", .arr books),
     ("chapters", .arr chapters),
     ("qas", .arr qas),
     ("history", .arr history),
     ("aiCoach", .obj
       [("selectedBookId", selectedBookId),
        ("selectedChapterId", selectedChapterId),
        ("lastConfig", lastConfig),
        ("generatedQuestions", .arr generatedQuestions),
        ("draftAnswers", .arr draftAnswers),
        ("feedbackHistory", .arr feedbackHistory)])]

/-- `normalizeUserData(raw)` from `src/app/data.ts`.  Returns `none` when the
JS function would throw. -/
def normalizeUserData (now : List Char) (raw : JVal) : Option JVal := do
  let books := booksOf raw
  let bookIds ← idsOf books
  let chapters ← chaptersOf raw bookIds
  let chapterIds ← idsOf chapters
  let history := historyOf raw
  let aiCoachRaw := raw.getOpt "aiCoach"
  let generatedQuestions := genQsOf now aiCoachRaw chapterIds
  let generatedQuestionIds := generatedQuestions.map (fun q => q.getOpt "id")
  let draftAnswers := draftsOf now aiCoachRaw chapterIds generatedQuestionIds
  let feedbackHistory := feedbackOf now aiCoachRaw bookIds chapterIds
  let (selectedBookId, selectedChapterId) := selectedOf aiCoachRaw bookIds chapters
  let lastConfig := lastConfigOf aiCoachRaw
  let qas ← qasOf raw chapterIds
  pure (assembleOutput books chapters qas history selectedBookId selectedChapterId
    lastConfig generatedQuestions draftAnswers feedbackHistory)

/-! ### Accessors on a normalized blob, used to state the claims -/

/-- The `aiCoach` sub-object of a blob. -/
def outAI (u : JVal) : JVal := u.getOpt "aiCoach"

/-- The `books` array of a blob. -/
def outBooks (u : JVal) : List JVal := ((u.getOpt "books").asArray?).getD []

/-- The `chapters` array of a blob. -/
def outChapters (u : JVal) : List JVal := ((u.getOpt "chapters").asArray?).getD []

/-- The `qas` array of a blob. -/
def outQas (u : JVal) : List JVal := ((u.getOpt "qas").asArray?).getD []

/-- The `aiCoach.generatedQuestions` array of a blob. -/
def outGenQs (u : JVal) : List JVal := (((outAI u).getOpt "generatedQuestions").asArray?).getD []

/-- The `aiCoach.draftAnswers` array of a blob. -/
def outDrafts (u : JVal) : List JVal := (((outAI u).getOpt "draftAnswers").asArray?).getD []

/-- The `aiCoach.feedbackHistory` array of a blob. -/
def outFeedback (u : JVal) : List JVal := (((outAI u).getOpt "feedbackHistory").asArray?).getD []

/-- The `aiCoach.selectedBookId` of a blob. -/
def outSelectedBookId (u : JVal) : JVal := (outAI u).getOpt "selectedBookId"

/-- The `aiCoach.selectedChapterId` of a blob. -/
def outSelectedChapterId (u : JVal) : JVal := (outAI u).getOpt "selectedChapterId"

/-! ## Helper lemmas -/

theorem clampText_length_le (v : JVal) (m : ℕ) : (clampText v m).length ≤ m := by
  cases v <;> simp only [clampText] <;> try simp
  split
  · simp
  · omega

theorem answerById_mem {answers : List GradeAnswer} {qid : List Char} {a : GradeAnswer}
    (h : answerById answers qid = some a) : a ∈ answers ∧ a.questionId = qid := by
  unfold answerById at h
  refine ⟨List.mem_reverse.mp (List.mem_of_find?_eq_some h), ?_⟩
  have := List.find?_some h
  simpa using this

theorem normGRow_some {answers : List GradeAnswer} {row : JVal} {r : GradeRowFull}
    (h : normGRow answers row = some r) :
    (∃ a ∈ answers, r.questionId = a.questionId) ∧ 0 ≤ r.score ∧ r.score ≤ 100 := by
  simp only [normGRow] at h
  split at h
  · cases h
  · next answer heq =>
    cases h
    have hmem : answer ∈ answers ∧
        answer.questionId = clampText (row.getOpt "questionId") 120 := by
      rcases Decidable.em (clampText (row.getOpt "questionId") 120 = []) with he | he
      · simp [he] at heq
      · exact answerById_mem (by simpa [he] using heq)
    refine ⟨⟨answer, hmem.1, by simp [hmem.2]⟩, ?_⟩
    simp only [jsMaxI, jsMinI]
    constructor <;> split <;> try split <;> omega

theorem normGLoop_mem (answers : List GradeAnswer) (rows : List JVal) :
    ∀ r ∈ normGLoop answers rows,
      (∃ a ∈ answers, r.questionId = a.questionId) ∧ 0 ≤ r.score ∧ r.score ≤ 100 := by
  induction rows with
  | nil => simp [normGLoop]
  | cons row rest ih =>
    intro r hr
    unfold normGLoop at hr
    revert hr
    split
    · intro hr; exact ih r hr
    · next r' heq =>
      intro hr
      rcases List.mem_cons.mp hr with h | h
      · subst h; exact normGRow_some heq
      · exact ih r h

theorem jmem_iff {x : JVal} {xs : List JVal} : jmem x xs = true ↔ x ∈ xs := by
  simp only [jmem, List.any_eq_true, decide_eq_true_eq]
  constructor
  · rintro ⟨y, hy, rfl⟩; exact hy
  · intro h; exact ⟨x, h, rfl⟩

theorem getStrict_eq_some {v x : JVal} {k : String} (h : v.getStrict k = some x) :
    v ≠ .null ∧ v ≠ .undef ∧ v.getOpt k = x := by
  cases v
  case null => simp [JVal.getStrict] at h
  case undef => simp [JVal.getStrict] at h
  all_goals
    refine ⟨by simp, by simp, ?_⟩
    simpa [JVal.getStrict] using h

theorem getStrict_of_ne {v : JVal} (h1 : v ≠ .null) (h2 : v ≠ .undef) (k : String) :
    v.getStrict k = some (v.getOpt k) := by
  cases v <;> simp_all [JVal.getStrict]

theorem filterJ_mem {p : JVal → Option Bool} {xs ys : List JVal}
    (h : filterJ p xs = some ys) : ∀ y ∈ ys, y ∈ xs ∧ p y = some true := by
  induction xs generalizing ys with
  | nil =>
    simp only [filterJ, Option.some.injEq] at h
    subst h; simp
  | cons x xs ih =>
    simp only [filterJ, Option.bind_eq_bind, Option.bind_eq_some, Option.pure_def,
      Option.some.injEq] at h
    rcases h with ⟨b, hb, rest, hrest, hys⟩
    subst hys
    intro y hy
    cases b with
    | true =>
      simp only [if_pos rfl] at hy
      rcases List.mem_cons.mp hy with rfl | hy'
      · exact ⟨List.mem_cons_self _ _, hb⟩
      · have := ih hrest y hy'
        exact ⟨List.mem_cons_of_mem _ this.1, this.2⟩
    | false =>
      simp only [Bool.false_eq_true, if_false] at hy
      have := ih hrest y hy
      exact ⟨List.mem_cons_of_mem _ this.1, this.2⟩

theorem filterJ_isSome {p : JVal → Option Bool} {xs : List JVal}
    (h : ∀ x ∈ xs, (p x).isSome) : (filterJ p xs).isSome := by
  induction xs with
  | nil => simp [filterJ]
  | cons x xs ih =>
    simp only [filterJ, Option.bind_eq_bind]
    rcases Option.isSome_iff_exists.mp (h x (List.mem_cons_self _ _)) with ⟨b, hb⟩
    rw [hb]
    rcases Option.isSome_iff_exists.mp (ih (fun y hy => h y (List.mem_cons_of_mem _ hy))) with
      ⟨ys, hys⟩
    simp [hys]

theorem filterJ_all_true {p : JVal → Option Bool} {ys : List JVal}
    (h : ∀ y ∈ ys, p y = some true) : filterJ p ys = some ys := by
  induction ys with
  | nil => simp [filterJ]
  | cons y ys ih =>
    simp only [filterJ, Option.bind_eq_bind]
    rw [h y (List.mem_cons_self _ _), ih (fun z hz => h z (List.mem_cons_of_mem _ hz))]
    simp

theorem idsOf_eq_map {xs ids : List JVal} (h : idsOf xs = some ids) :
    ids = xs.map (fun x => x.getOpt "id") := by
  induction xs generalizing ids with
  | nil =>
    simp only [idsOf, List.mapM_nil, Option.pure_def, Option.some.injEq] at h
    simp [h.symm]
  | cons x xs ih =>
    simp only [idsOf, List.mapM_cons, Option.bind_eq_bind, Option.bind_eq_some,
      Option.pure_def, Option.some.injEq] at h
    rcases h with ⟨i, hi, rest, hrest, hids⟩
    have h1 := getStrict_eq_some hi
    rw [← hids, List.map_cons]
    rw [ih hrest]
    rw [h1.2.2]

theorem idsOf_nonnull {xs : List JVal} (h : ∀ x ∈ xs, x ≠ .null ∧ x ≠ .undef) :
    idsOf xs = some (xs.map (fun x => x.getOpt "id")) := by
  induction xs with
  | nil => simp only [idsOf, List.mapM_nil, List.map_nil, Option.pure_def]
  | cons x xs ih =>
    have hx := h x (List.mem_cons_self _ _)
    simp only [idsOf, List.mapM_cons, Option.bind_eq_bind]
    rw [getStrict_of_ne hx.1 hx.2]
    have := ih (fun y hy => h y (List.mem_cons_of_mem _ hy))
    simp only [idsOf] at this
    rw [Option.some_bind, this]
    simp

theorem idsOf_mem {xs ids : List JVal} (h : idsOf xs = some ids) {i : JVal} (hi : i ∈ ids) :
    ∃ x ∈ xs, x.getOpt "id" = i := by
  rw [idsOf_eq_map h] at hi
  rcases List.mem_map.mp hi with ⟨x, hx, hxi⟩
  exact ⟨x, hx, hxi⟩

theorem assembleOutput_books (b c q h : List JVal) (sb sc cfg : JVal) (g d f : List JVal) :
    outBooks (assembleOutput b c q h sb sc cfg g d f) = b := rfl

theorem assembleOutput_chapters (b c q h : List JVal) (sb sc cfg : JVal) (g d f : List JVal) :
    outChapters (assembleOutput b c q h sb sc cfg g d f) = c := rfl

theorem assembleOutput_qas (b c q h : List JVal) (sb sc cfg : JVal) (g d f : List JVal) :
    outQas (assembleOutput b c q h sb sc cfg g d f) = q := rfl

theorem assembleOutput_genQs (b c q h : List JVal) (sb sc cfg : JVal) (g d f : List JVal) :
    outGenQs (assembleOutput b c q h sb sc cfg g d f) = g := rfl

theorem assembleOutput_drafts (b c q h : List JVal) (sb sc cfg : JVal) (g d f : List JVal) :
    outDrafts (assembleOutput b c q h sb sc cfg g d f) = d := rfl

theorem assembleOutput_feedback (b c q h : List JVal) (sb sc cfg : JVal) (g d f : List JVal) :
    outFeedback (assembleOutput b c q h sb sc cfg g d f) = f := rfl

theorem assembleOutput_selBook (b c q h : List JVal) (sb sc cfg : JVal) (g d f : List JVal) :
    outSelectedBookId (assembleOutput b c q h sb sc cfg g d f) = sb := rfl

theorem assembleOutput_selChap (b c q h : List JVal) (sb sc cfg : JVal) (g d f : List JVal) :
    outSelectedChapterId (assembleOutput b c q h sb sc cfg g d f) = sc := rfl

theorem clampStr_empty (m : ℕ) : clampStr (js "") m = js "" := by
  simp [clampStr, js, JVal.truthy]

theorem clampStr_str_of_le {ds : List Char} (h1 : ds ≠ []) {m : ℕ} (h2 : ds.length ≤ m) :
    clampStr (.str ds) m = .str ds := by
  unfold clampStr
  rw [if_neg (by simp [JVal.truthy, h1])]
  simp
  omega

theorem clampStr_arr_of_le {xs : List JVal} {m : ℕ} (h2 : xs.length ≤ m) :
    clampStr (.arr xs) m = .arr xs := by
  unfold clampStr
  rw [if_neg (by simp [JVal.truthy])]
  simp
  omega

theorem clampStr_idem (v : JVal) (m : ℕ) : clampStr (clampStr v m) m = clampStr v m := by
  cases v with
  | null => rw [show clampStr JVal.null m = js "" from rfl]; exact clampStr_empty m
  | undef => rw [show clampStr JVal.undef m = js "" from rfl]; exact clampStr_empty m
  | bool b =>
    cases b with
    | false => rw [show clampStr (JVal.bool false) m = js "" from rfl]; exact clampStr_empty m
    | true => rfl
  | num q =>
    by_cases hq : q = 0
    · subst hq
      rw [show clampStr (JVal.num 0) m = js "" by simp [clampStr, JVal.truthy]]
      exact clampStr_empty m
    · rw [show clampStr (JVal.num q) m = JVal.num q by simp [clampStr, JVal.truthy, hq]]
      simp [clampStr, JVal.truthy, hq]
  | obj fields => rfl
  | str cs =>
    by_cases hcs : cs = []
    · subst hcs
      rw [show clampStr (JVal.str []) m = js "" by simp [clampStr, JVal.truthy, js]]
      exact clampStr_empty m
    · have h1 : clampStr (JVal.str cs) m =
          if cs.length > m then JVal.str (cs.take m) else JVal.str cs := by
        simp [clampStr, JVal.truthy, hcs]
      rw [h1]
      split
      · by_cases hT : cs.take m = []
        · rw [hT]
          exact clampStr_empty m
        · exact clampStr_str_of_le hT (by simp)
      · exact clampStr_str_of_le hcs (by omega)
  | arr xs =>
    have h1 : clampStr (JVal.arr xs) m =
        if xs.length > m then JVal.arr (xs.take m) else JVal.arr xs := by
      simp [clampStr, JVal.truthy]
    rw [h1]
    split
    · exact clampStr_arr_of_le (by simp)
    · exact clampStr_arr_of_le (by omega)

theorem clampStr_ne (v : JVal) (m : ℕ) :
    clampStr v m ≠ JVal.null ∧ clampStr v m ≠ JVal.undef := by
  cases v <;> unfold clampStr <;> constructor <;> split <;> try split
  all_goals try (split <;> simp)
  all_goals simp_all [js, JVal.truthy]

theorem clampStr_isString {v : JVal} (h : v.isString = true) (m : ℕ) :
    (clampStr v m).isString = true := by
  cases v
  case str cs =>
    by_cases hcs : cs = []
    · subst hcs
      rw [show clampStr (JVal.str []) m = js "" by simp [clampStr, JVal.truthy, js]]
      rfl
    · rw [show clampStr (JVal.str cs) m =
          if cs.length > m then JVal.str (cs.take m) else JVal.str cs by
        simp [clampStr, JVal.truthy, hcs]]
      split <;> rfl
  all_goals simp [JVal.isString] at h

theorem nullish_of_ne {v : JVal} (h1 : v ≠ JVal.null) (h2 : v ≠ JVal.undef) (d : JVal) :
    v.nullish d = v := by
  cases v <;> simp_all [JVal.nullish]

theorem nullish_ne {d : JVal} (h1 : d ≠ JVal.null) (h2 : d ≠ JVal.undef) (v : JVal) :
    v.nullish d ≠ JVal.null ∧ v.nullish d ≠ JVal.undef := by
  cases v <;> simp_all [JVal.nullish]

theorem nullish_clampStr (v : JVal) (m : ℕ) (d : JVal) :
    (clampStr v m).nullish d = clampStr v m :=
  nullish_of_ne (clampStr_ne v m).1 (clampStr_ne v m).2 d

theorem nullish_nullish_str (v : JVal) (now now₂ : List Char) :
    (v.nullish (.str now)).nullish (.str now₂) = v.nullish (.str now) := by
  cases v <;> simp [JVal.nullish]

theorem isAIDifficulty_fix (v : JVal) :
    isAIDifficulty (if isAIDifficulty v then v else js "mixed") = true := by
  split
  · assumption
  · rfl

theorem difficulty_idem (v : JVal) :
    (if isAIDifficulty (if isAIDifficulty v then v else js "mixed") then
      (if isAIDifficulty v then v else js "mixed")
     else js "mixed") = (if isAIDifficulty v then v else js "mixed") := by
  rw [if_pos (isAIDifficulty_fix v)]

theorem isAIQuestionStyle_fix (v : JVal) :
    isAIQuestionStyle (if isAIQuestionStyle v then v else js "comprehension") = true := by
  split
  · assumption
  · rfl

theorem style_idem (v : JVal) :
    (if isAIQuestionStyle (if isAIQuestionStyle v then v else js "comprehension") then
      (if isAIQuestionStyle v then v else js "comprehension")
     else js "comprehension") = (if isAIQuestionStyle v then v else js "comprehension") := by
  rw [if_pos (isAIQuestionStyle_fix v)]

theorem jsRound_int (z : ℤ) : jsRound ((z : ℚ)) = z := by
  unfold jsRound
  rw [Rat.num_intCast, Rat.den_intCast]
  push_cast
  rw [show 2 * z + 1 = 1 + z * 2 by ring]
  rw [Int.add_mul_ediv_right 1 z (by norm_num : (2 : ℤ) ≠ 0)]
  norm_num

theorem clampInt_mem (v : JVal) (mn mx fb : ℤ) (h1 : mn ≤ fb) (h2 : fb ≤ mx) :
    mn ≤ clampInt v mn mx fb ∧ clampInt v mn mx fb ≤ mx := by
  unfold clampInt
  cases jsToNumber v with
  | none => exact ⟨h1, h2⟩
  | some q =>
    simp only [jsMinI, jsMaxI]
    constructor <;> split <;> try split <;> omega

theorem clampInt_int_stable {z : ℤ} (mn mx fb : ℤ) (hz1 : mn ≤ z) (hz2 : z ≤ mx) :
    clampInt (.num (z : ℚ)) mn mx fb = z := by
  unfold clampInt
  show jsMinI mx (jsMaxI mn (jsRound ((z : ℚ)))) = z
  rw [jsRound_int]
  simp only [jsMinI, jsMaxI]
  split <;> try split <;> omega

theorem chaptersOf_isSome {raw : JVal} {bookIds : List JVal}
    (h : ∀ ch ∈ ((raw.getOpt "chapters").asArray?).getD [], ch ≠ .null ∧ ch ≠ .undef) :
    (chaptersOf raw bookIds).isSome := by
  unfold chaptersOf
  cases harr : (raw.getOpt "chapters").asArray? with
  | none => simp
  | some xs =>
    apply filterJ_isSome
    intro x hx
    have hx' := h x (by rw [harr]; simpa using hx)
    rw [getStrict_of_ne hx'.1 hx'.2]
    simp

theorem qasOf_isSome {raw : JVal} {chapterIds : List JVal}
    (h : ∀ qa ∈ ((raw.getOpt "qas").asArray?).getD [], qa ≠ .null ∧ qa ≠ .undef) :
    (qasOf raw chapterIds).isSome := by
  unfold qasOf
  cases harr : (raw.getOpt "qas").asArray? with
  | none => simp
  | some xs =>
    apply filterJ_isSome
    intro x hx
    have hx' := h x (by rw [harr]; simpa using hx)
    rw [getStrict_of_ne hx'.1 hx'.2]
    simp

theorem chaptersOf_mem {raw : JVal} {bookIds chapters : List JVal}
    (h : chaptersOf raw bookIds = some chapters) :
    ∀ ch ∈ chapters, ch ∈ ((raw.getOpt "chapters").asArray?).getD [] ∧
      ch ≠ .null ∧ ch ≠ .undef ∧ jmem (ch.getOpt "bookId") bookIds = true := by
  unfold chaptersOf at h
  cases harr : (raw.getOpt "chapters").asArray? with
  | none =>
    rw [harr] at h
    intro ch hch
    simp_all
  | some xs =>
    rw [harr] at h
    intro ch hch
    have := filterJ_mem h ch hch
    rcases Option.map_eq_some'.mp this.2 with ⟨bv, hbv, hmem⟩
    have h2 := getStrict_eq_some hbv
    exact ⟨by simpa [harr] using this.1, h2.1, h2.2.1, by rw [h2.2.2]; exact hmem⟩

theorem qasOf_mem {raw : JVal} {chapterIds qas : List JVal}
    (h : qasOf raw chapterIds = some qas) :
    ∀ qa ∈ qas, qa ≠ .null ∧ qa ≠ .undef ∧ jmem (qa.getOpt "chapterId") chapterIds = true := by
  unfold qasOf at h
  cases harr : (raw.getOpt "qas").asArray? with
  | none =>
    rw [harr] at h
    intro qa hqa
    simp_all
  | some xs =>
    rw [harr] at h
    intro qa hqa
    have := filterJ_mem h qa hqa
    rcases Option.map_eq_some'.mp this.2 with ⟨cv, hcv, hmem⟩
    have h2 := getStrict_eq_some hcv
    refine ⟨h2.1, h2.2.1, ?_⟩
    rw [h2.2.2]
    exact hmem

theorem genQsOf_mem {now : List Char} {air : JVal} {cids : List JVal} {q : JVal}
    (h : q ∈ genQsOf now air cids) :
    ∃ q₀, genQPred cids q₀ = true ∧ q = genQBuild now q₀ := by
  unfold genQsOf at h
  cases harr : (air.getOpt "generatedQuestions").asArray? with
  | none => rw [harr] at h; simp at h
  | some xs =>
    rw [harr] at h
    rcases List.mem_map.mp h with ⟨q₀, hq₀, rfl⟩
    exact ⟨q₀, (List.mem_filter.mp hq₀).2, rfl⟩

theorem draftsOf_mem {now : List Char} {air : JVal} {cids gids : List JVal} {a : JVal}
    (h : a ∈ draftsOf now air cids gids) :
    ∃ a₀, draftPred cids gids a₀ = true ∧ a = draftBuild now a₀ := by
  unfold draftsOf at h
  cases harr : (air.getOpt "draftAnswers").asArray? with
  | none => rw [harr] at h; simp at h
  | some xs =>
    rw [harr] at h
    rcases List.mem_map.mp h with ⟨a₀, ha₀, rfl⟩
    exact ⟨a₀, (List.mem_filter.mp ha₀).2, rfl⟩

theorem feedbackOf_mem {now : List Char} {air : JVal} {bids cids : List JVal} {e : JVal}
    (h : e ∈ feedbackOf now air bids cids) :
    ∃ e₀, feedbackPred bids cids e₀ = true ∧ e = feedbackBuild now e₀ := by
  unfold feedbackOf at h
  cases harr : (air.getOpt "feedbackHistory").asArray? with
  | none => rw [harr] at h; simp at h
  | some xs =>
    rw [harr] at h
    have h1 := List.mem_of_mem_take h
    have h2 := (List.mem_filter.mp h1).1
    rcases List.mem_map.mp h2 with ⟨e₀, he₀, rfl⟩
    exact ⟨e₀, (List.mem_filter.mp he₀).2, rfl⟩

theorem chaptersOf_stable {bookIds chapters : List JVal} {u : JVal}
    (hm : ∀ ch ∈ chapters, ch ≠ JVal.null ∧ ch ≠ JVal.undef ∧
      jmem (ch.getOpt "bookId") bookIds = true)
    (harr : (u.getOpt "chapters").asArray? = some chapters) :
    chaptersOf u bookIds = some chapters := by
  unfold chaptersOf
  rw [harr]
  apply filterJ_all_true
  intro ch hch
  rw [getStrict_of_ne (hm ch hch).1 (hm ch hch).2.1]
  simp [(hm ch hch).2.2]

theorem qasOf_stable {chapterIds qas : List JVal} {u : JVal}
    (hm : ∀ qa ∈ qas, qa ≠ JVal.null ∧ qa ≠ JVal.undef ∧
      jmem (qa.getOpt "chapterId") chapterIds = true)
    (harr : (u.getOpt "qas").asArray? = some qas) :
    qasOf u chapterIds = some qas := by
  unfold qasOf
  rw [harr]
  apply filterJ_all_true
  intro qa hqa
  rw [getStrict_of_ne (hm qa hqa).1 (hm qa hqa).2.1]
  simp [(hm qa hqa).2.2]

theorem historyOf_mem {raw : JVal} :
    ∀ e ∈ historyOf raw,
      (e.truthy && e.isObjectType && isKnownHistoryType (e.getOpt "type")) = true := by
  unfold historyOf
  cases harr : (raw.getOpt "history").asArray? with
  | none => simp
  | some xs =>
    intro e he
    exact (List.mem_filter.mp he).2

theorem historyOf_stable {u : JVal} {hist : List JVal}
    (hm : ∀ e ∈ hist,
      (e.truthy && e.isObjectType && isKnownHistoryType (e.getOpt "type")) = true)
    (harr : (u.getOpt "history").asArray? = some hist) :
    historyOf u = hist := by
  unfold historyOf
  rw [harr]
  exact List.filter_eq_self.mpr hm

theorem genQsOf_stable {now₂ : List Char} {air₂ : JVal} {cids gqs : List JVal}
    (harr : (air₂.getOpt "generatedQuestions").asArray? = some gqs)
    (hpred : ∀ q ∈ gqs, genQPred cids q = true)
    (hfix : ∀ q ∈ gqs, genQBuild now₂ q = q) :
    genQsOf now₂ air₂ cids = gqs := by
  unfold genQsOf
  rw [harr]
  show (gqs.filter (genQPred cids)).map (genQBuild now₂) = gqs
  rw [List.filter_eq_self.mpr hpred, List.map_congr_left hfix]
  exact List.map_id' _

theorem draftsOf_stable {now₂ : List Char} {air₂ : JVal} {cids gids das : List JVal}
    (harr : (air₂.getOpt "draftAnswers").asArray? = some das)
    (hpred : ∀ a ∈ das, draftPred cids gids a = true)
    (hfix : ∀ a ∈ das, draftBuild now₂ a = a) :
    draftsOf now₂ air₂ cids gids = das := by
  unfold draftsOf
  rw [harr]
  show (das.filter (draftPred cids gids)).map (draftBuild now₂) = das
  rw [List.filter_eq_self.mpr hpred, List.map_congr_left hfix]
  exact List.map_id' _

theorem feedbackOf_stable {now₂ : List Char} {air₂ : JVal} {bids cids fbs : List JVal}
    (harr : (air₂.getOpt "feedbackHistory").asArray? = some fbs)
    (hpred : ∀ e ∈ fbs, feedbackPred bids cids e = true)
    (hfix : ∀ e ∈ fbs, feedbackBuild now₂ e = e)
    (hres : ∀ e ∈ fbs,
      decide ((((e.getOpt "results").asArray?).getD []).length > 0) = true)
    (hlen : fbs.length ≤ 500) :
    feedbackOf now₂ air₂ bids cids = fbs := by
  unfold feedbackOf
  rw [harr]
  show (((fbs.filter (feedbackPred bids cids)).map (feedbackBuild now₂)).filter
      (fun e => decide ((((e.getOpt "results").asArray?).getD []).length > 0))).take 500 = fbs
  rw [List.filter_eq_self.mpr hpred, List.map_congr_left hfix, List.map_id' _,
    List.filter_eq_self.mpr hres, List.take_of_length_le hlen]

theorem feedbackOf_mem_res {now : List Char} {air : JVal} {bids cids : List JVal} {e : JVal}
    (h : e ∈ feedbackOf now air bids cids) :
    decide ((((e.getOpt "results").asArray?).getD []).length > 0) = true := by
  unfold feedbackOf at h
  cases harr : (air.getOpt "feedbackHistory").asArray? with
  | none => rw [harr] at h; simp at h
  | some xs =>
    rw [harr] at h
    exact (List.mem_filter.mp (List.mem_of_mem_take h)).2

theorem feedbackOf_length_le (now : List Char) (air : JVal) (bids cids : List JVal) :
    (feedbackOf now air bids cids).length ≤ 500 := by
  unfold feedbackOf
  cases (air.getOpt "feedbackHistory").asArray? with
  | none => simp
  | some xs =>
    show ((((xs.filter (feedbackPred bids cids)).map (feedbackBuild now)).filter
        (fun e => decide ((((e.getOpt "results").asArray?).getD []).length > 0))).take
      500).length ≤ 500
    rw [List.length_take]
    omega

theorem selBookOf_cases (air : JVal) (bids : List JVal) :
    selBookOf air bids = .undef ∨
      ((selBookOf air bids).isString = true ∧ jmem (selBookOf air bids) bids = true) := by
  unfold selBookOf
  split
  · next hcond =>
    right
    rcases Bool.and_eq_true_iff.mp hcond with ⟨h1, h2⟩
    exact ⟨h1, h2⟩
  · left; rfl

theorem selChapRawOf_isString {air : JVal} (h : (selChapRawOf air).truthy = true) :
    (selChapRawOf air).isString = true := by
  unfold selChapRawOf at h ⊢
  split
  · assumption
  · rw [if_neg (by assumption)] at h
    simp [JVal.truthy] at h

theorem selBookOf_stable {air air₂ : JVal} {bids : List JVal}
    (hsb : air₂.getOpt "selectedBookId" = selBookOf air bids) :
    selBookOf air₂ bids = selBookOf air bids := by
  conv_lhs => rw [selBookOf]
  rw [hsb]
  rcases selBookOf_cases air bids with hu | ⟨h1, h2⟩
  · rw [hu]
    rw [if_neg]
    simp [JVal.isString]
  · rw [if_pos (by rw [h1, h2]; rfl)]

theorem selChapOf_stable {air air₂ : JVal} {bids chapters : List JVal}
    (hsb : air₂.getOpt "selectedBookId" = selBookOf air bids)
    (hsc : air₂.getOpt "selectedChapterId" = selChapOf air bids chapters) :
    selChapOf air₂ bids chapters = selChapOf air bids chapters := by
  have hS : selBookOf air₂ bids = selBookOf air bids := selBookOf_stable hsb
  have hR2 : selChapRawOf air₂ =
      (if (selChapOf air bids chapters).isString then selChapOf air bids chapters
       else .undef) := by
    unfold selChapRawOf
    rw [hsc]
  have hlhs : selChapOf air₂ bids chapters =
      (if (selBookOf air bids).truthy && (selChapRawOf air₂).truthy &&
          chapters.any (fun ch =>
            decide (ch.getOpt "bookId" = selBookOf air bids) &&
              decide (ch.getOpt "id" = selChapRawOf air₂)) then
        selChapRawOf air₂
      else if (selBookOf air bids).truthy then
        match chapters.find? (fun ch => decide (ch.getOpt "bookId" = selBookOf air bids)) with
        | some ch => ch.getOpt "id"
        | none => .undef
      else .undef) := by
    rw [← hS]
    rfl
  have hrhs : selChapOf air bids chapters =
      (if (selBookOf air bids).truthy && (selChapRawOf air).truthy &&
          chapters.any (fun ch =>
            decide (ch.getOpt "bookId" = selBookOf air bids) &&
              decide (ch.getOpt "id" = selChapRawOf air)) then
        selChapRawOf air
      else if (selBookOf air bids).truthy then
        match chapters.find? (fun ch => decide (ch.getOpt "bookId" = selBookOf air bids)) with
        | some ch => ch.getOpt "id"
        | none => .undef
      else .undef) := rfl
  by_cases hbt : (selBookOf air bids).truthy = true
  · by_cases hcond : ((selChapRawOf air).truthy &&
        chapters.any (fun ch =>
          decide (ch.getOpt "bookId" = selBookOf air bids) &&
            decide (ch.getOpt "id" = selChapRawOf air))) = true
    · -- pass 1 kept the stored pointer
      rcases Bool.and_eq_true_iff.mp hcond with ⟨htr, hany⟩
      have hstr := selChapRawOf_isString htr
      have hC : selChapOf air bids chapters = selChapRawOf air := by
        rw [hrhs, if_pos (by rw [hbt, htr, hany]; rfl)]
      have hR2' : selChapRawOf air₂ = selChapRawOf air := by
        rw [hR2, hC, if_pos hstr]
      rw [hlhs, hR2', if_pos (by rw [hbt, htr, hany]; rfl), hC]
    · -- pass 1 fell back to the first chapter of the selected book
      have hC : selChapOf air bids chapters =
          (match chapters.find?
              (fun ch => decide (ch.getOpt "bookId" = selBookOf air bids)) with
           | some ch => ch.getOpt "id"
           | none => .undef) := by
        rw [hrhs, if_neg, if_pos hbt]
        rw [hbt]
        simp only [Bool.true_and]
        exact hcond
      cases hfind : chapters.find?
          (fun ch => decide (ch.getOpt "bookId" = selBookOf air bids)) with
      | none =>
        have hC' : selChapOf air bids chapters = .undef := by rw [hC, hfind]
        have hR2' : selChapRawOf air₂ = .undef := by
          rw [hR2, hC']
          rfl
        have hnc : ¬ ((selBookOf air bids).truthy && JVal.undef.truthy &&
            chapters.any (fun ch =>
              decide (ch.getOpt "bookId" = selBookOf air bids) &&
                decide (ch.getOpt "id" = JVal.undef))) = true := by
          simp [JVal.truthy]
        rw [hlhs, hR2', if_neg hnc, if_pos hbt, hfind]
        exact hC'.symm
      | some ch =>
        have hchb : decide (ch.getOpt "bookId" = selBookOf air bids) = true := by
          have := List.find?_some hfind
          simpa using this
        have hchm : ch ∈ chapters := List.mem_of_find?_eq_some hfind
        have hC' : selChapOf air bids chapters = ch.getOpt "id" := by rw [hC, hfind]
        by_cases hstr : (ch.getOpt "id").isString = true
        · have hR2' : selChapRawOf air₂ = ch.getOpt "id" := by
            rw [hR2, hC', if_pos hstr]
          by_cases htr : (ch.getOpt "id").truthy = true
          · have hany : chapters.any (fun c =>
                decide (c.getOpt "bookId" = selBookOf air bids) &&
                  decide (c.getOpt "id" = ch.getOpt "id")) = true :=
              List.any_eq_true.mpr ⟨ch, hchm, by rw [hchb]; simp⟩
            rw [hlhs, hR2', if_pos (by rw [hbt, htr, hany]; rfl), hC']
          · have hnc : ¬ ((selBookOf air bids).truthy && (ch.getOpt "id").truthy &&
                chapters.any (fun c =>
                  decide (c.getOpt "bookId" = selBookOf air bids) &&
                    decide (c.getOpt "id" = ch.getOpt "id"))) = true := by
              rw [Bool.not_eq_true] at htr
              rw [htr]
              simp
            rw [hlhs, hR2', if_neg hnc, if_pos hbt, hfind]
            exact hC'.symm
        · have hR2' : selChapRawOf air₂ = .undef := by
            rw [hR2, hC', if_neg hstr]
          have hnc : ¬ ((selBookOf air bids).truthy && JVal.undef.truthy &&
              chapters.any (fun c =>
                decide (c.getOpt "bookId" = selBookOf air bids) &&
                  decide (c.getOpt "id" = JVal.undef))) = true := by
            simp [JVal.truthy]
          rw [hlhs, hR2', if_neg hnc, if_pos hbt, hfind]
          exact hC'.symm
  · -- no (truthy) selected book: both passes yield undefined
    rw [Bool.not_eq_true] at hbt
    have hC : selChapOf air bids chapters = .undef := by
      rw [hrhs, if_neg, if_neg (by rw [hbt]; simp)]
      rw [hbt]
      simp
    rw [hlhs, hC, if_neg, if_neg (by rw [hbt]; simp)]
    rw [hbt]
    simp

theorem lastConfigOf_ne (air : JVal) :
    lastConfigOf air ≠ JVal.null ∧ lastConfigOf air ≠ JVal.undef := by
  unfold lastConfigOf
  exact ⟨by simp, by simp⟩

theorem lastConfigOf_stable {air air₂ : JVal}
    (h : air₂.getOpt "lastConfig" = lastConfigOf air) :
    lastConfigOf air₂ = lastConfigOf air := by
  conv_lhs => rw [lastConfigOf]
  rw [h]
  rw [nullish_of_ne (lastConfigOf_ne air).1 (lastConfigOf_ne air).2]
  rw [show (lastConfigOf air).getOpt "count" =
    JVal.num ((clampInt (((air.getOpt "lastConfig").nullish (.obj [])).getOpt "count") 1 15 6 :
      ℤ) : ℚ) from rfl]
  rw [show (lastConfigOf air).getOpt "difficulty" =
    (if isAIDifficulty (((air.getOpt "lastConfig").nullish (.obj [])).getOpt "difficulty") then
      ((air.getOpt "lastConfig").nullish (.obj [])).getOpt "difficulty"
     else js "mixed") from rfl]
  rw [show (lastConfigOf air).getOpt "style" =
    (if isAIQuestionStyle (((air.getOpt "lastConfig").nullish (.obj [])).getOpt "style") then
      ((air.getOpt "lastConfig").nullish (.obj [])).getOpt "style"
     else js "comprehension") from rfl]
  rw [clampInt_int_stable 1 15 6 (clampInt_mem _ 1 15 6 (by norm_num) (by norm_num)).1
    (clampInt_mem _ 1 15 6 (by norm_num) (by norm_num)).2]
  rw [difficulty_idem, style_idem]
  rfl

theorem genQBuild_getOpt_chapterId (now : List Char) (q : JVal) :
    (genQBuild now q).getOpt "chapterId" = q.getOpt "chapterId" := rfl

theorem draftBuild_getOpt_chapterId (now : List Char) (a : JVal) :
    (draftBuild now a).getOpt "chapterId" = a.getOpt "chapterId" := rfl

theorem draftBuild_getOpt_questionId (now : List Char) (a : JVal) :
    (draftBuild now a).getOpt "questionId" = a.getOpt "questionId" := rfl

theorem feedbackBuild_getOpt_bookId (now : List Char) (e : JVal) :
    (feedbackBuild now e).getOpt "bookId" = e.getOpt "bookId" := rfl

theorem feedbackBuild_getOpt_chapterId (now : List Char) (e : JVal) :
    (feedbackBuild now e).getOpt "chapterId" = e.getOpt "chapterId" := rfl

theorem genQBuild_stable (now now₂ : List Char) (q₀ : JVal) :
    genQBuild now₂ (genQBuild now q₀) = genQBuild now q₀ := by
  conv_lhs => rw [genQBuild]
  rw [show (genQBuild now q₀).getOpt "id" = q₀.getOpt "id" from rfl]
  rw [genQBuild_getOpt_chapterId]
  rw [show (genQBuild now q₀).getOpt "question" = clampStr (q₀.getOpt "question") 500 from rfl]
  rw [show (genQBuild now q₀).getOpt "rubric" =
    clampStr ((q₀.getOpt "rubric").nullish (js "")) 2000 from rfl]
  rw [show (genQBuild now q₀).getOpt "createdAt" =
    (q₀.getOpt "createdAt").nullish (.str now) from rfl]
  rw [show (genQBuild now q₀).getOpt "difficulty" =
    (if isAIDifficulty (q₀.getOpt "difficulty") then q₀.getOpt "difficulty" else js "mixed")
    from rfl]
  rw [show (genQBuild now q₀).getOpt "style" =
    (if isAIQuestionStyle (q₀.getOpt "style") then q₀.getOpt "style" else js "comprehension")
    from rfl]
  rw [clampStr_idem, nullish_clampStr, clampStr_idem, nullish_nullish_str,
    difficulty_idem, style_idem]
  rfl

theorem genQPred_build {cids : List JVal} {q₀ : JVal} (hp : genQPred cids q₀ = true)
    (now : List Char) (ht : jsTrim (((genQBuild now q₀).getOpt "question").strVal) ≠ []) :
    genQPred cids (genQBuild now q₀) = true := by
  simp only [genQPred, Bool.and_eq_true] at hp
  obtain ⟨⟨⟨⟨⟨_, h2⟩, h3⟩, h4⟩, h5⟩, _⟩ := hp
  simp only [genQPred, Bool.and_eq_true]
  refine ⟨⟨⟨⟨⟨rfl, ?_⟩, ?_⟩, ?_⟩, ?_⟩, ?_⟩
  · rw [show (genQBuild now q₀).getOpt "id" = q₀.getOpt "id" from rfl]
    exact h2
  · rw [genQBuild_getOpt_chapterId]
    exact h3
  · rw [genQBuild_getOpt_chapterId]
    exact h4
  · rw [show (genQBuild now q₀).getOpt "question" = clampStr (q₀.getOpt "question") 500 from rfl]
    exact clampStr_isString h5 500
  · exact decide_eq_true ht

theorem draftBuild_stable (now now₂ : List Char) (a₀ : JVal) :
    draftBuild now₂ (draftBuild now a₀) = draftBuild now a₀ := by
  conv_lhs => rw [draftBuild]
  rw [draftBuild_getOpt_chapterId, draftBuild_getOpt_questionId]
  rw [show (draftBuild now a₀).getOpt "answer" = clampStr (a₀.getOpt "answer") 10000 from rfl]
  rw [show (draftBuild now a₀).getOpt "updatedAt" =
    (a₀.getOpt "updatedAt").nullish (.str now) from rfl]
  rw [clampStr_idem, nullish_nullish_str]
  rfl

theorem draftPred_build {cids gids : List JVal} {a₀ : JVal}
    (hp : draftPred cids gids a₀ = true) (now : List Char)
    (ht : jsTrim (((draftBuild now a₀).getOpt "answer").strVal) ≠ []) :
    draftPred cids gids (draftBuild now a₀) = true := by
  simp only [draftPred, Bool.and_eq_true] at hp
  obtain ⟨⟨⟨⟨⟨⟨_, h2⟩, h3⟩, h4⟩, h5⟩, h6⟩, _⟩ := hp
  simp only [draftPred, Bool.and_eq_true]
  refine ⟨⟨⟨⟨⟨⟨rfl, ?_⟩, ?_⟩, ?_⟩, ?_⟩, ?_⟩, ?_⟩
  · rw [draftBuild_getOpt_chapterId]; exact h2
  · rw [draftBuild_getOpt_chapterId]; exact h3
  · rw [draftBuild_getOpt_questionId]; exact h4
  · rw [draftBuild_getOpt_questionId]; exact h5
  · rw [show (draftBuild now a₀).getOpt "answer" = clampStr (a₀.getOpt "answer") 10000 from rfl]
    exact clampStr_isString h6 10000
  · exact decide_eq_true ht

theorem gradeResultBuild_stable (r₀ : JVal) :
    gradeResultBuild (gradeResultBuild r₀) = gradeResultBuild r₀ := by
  conv_lhs => rw [gradeResultBuild]
  rw [show (gradeResultBuild r₀).getOpt "questionId" = r₀.getOpt "questionId" from rfl]
  rw [show (gradeResultBuild r₀).getOpt "question" = clampStr (r₀.getOpt "question") 500
    from rfl]
  rw [show (gradeResultBuild r₀).getOpt "studentAnswer" =
    clampStr (r₀.getOpt "studentAnswer") 10000 from rfl]
  rw [show (gradeResultBuild r₀).getOpt "score" =
    .num ((clampInt (r₀.getOpt "score") 0 100 0 : ℤ) : ℚ) from rfl]
  rw [show (gradeResultBuild r₀).getOpt "feedback" =
    clampStr ((r₀.getOpt "feedback").nullish (js "")) 2000 from rfl]
  rw [show (gradeResultBuild r₀).getOpt "idealAnswer" =
    clampStr ((r₀.getOpt "idealAnswer").nullish (js "")) 2000 from rfl]
  rw [clampStr_idem, clampStr_idem, nullish_clampStr, clampStr_idem, nullish_clampStr,
    clampStr_idem]
  rw [clampInt_int_stable 0 100 0 (clampInt_mem _ 0 100 0 (by norm_num) (by norm_num)).1
    (clampInt_mem _ 0 100 0 (by norm_num) (by norm_num)).2]
  rfl

theorem gradeResultPred_build {r₀ : JVal} (hp : gradeResultPred r₀ = true) :
    gradeResultPred (gradeResultBuild r₀) = true := by
  simp only [gradeResultPred, Bool.and_eq_true] at hp
  obtain ⟨⟨⟨_, h2⟩, h3⟩, h4⟩ := hp
  simp only [gradeResultPred, Bool.and_eq_true]
  refine ⟨⟨⟨rfl, ?_⟩, ?_⟩, ?_⟩
  · rw [show (gradeResultBuild r₀).getOpt "questionId" = r₀.getOpt "questionId" from rfl]
    exact h2
  · rw [show (gradeResultBuild r₀).getOpt "question" = clampStr (r₀.getOpt "question") 500
      from rfl]
    exact clampStr_isString h3 500
  · rw [show (gradeResultBuild r₀).getOpt "studentAnswer" =
      clampStr (r₀.getOpt "studentAnswer") 10000 from rfl]
    exact clampStr_isString h4 10000

theorem feedbackBuild_results (now : List Char) (e₀ : JVal) :
    (feedbackBuild now e₀).getOpt "results" =
      .arr ((((e₀.getOpt "results").asArray?).getD []).filter gradeResultPred
        |>.map gradeResultBuild) := rfl

theorem feedbackBuild_stable (now now₂ : List Char) (e₀ : JVal) :
    feedbackBuild now₂ (feedbackBuild now e₀) = feedbackBuild now e₀ := by
  conv_lhs => rw [feedbackBuild]
  rw [show (feedbackBuild now e₀).getOpt "id" = e₀.getOpt "id" from rfl]
  rw [feedbackBuild_getOpt_bookId, feedbackBuild_getOpt_chapterId]
  rw [show (feedbackBuild now e₀).getOpt "createdAt" =
    (e₀.getOpt "createdAt").nullish (.str now) from rfl]
  rw [show (feedbackBuild now e₀).getOpt "difficulty" =
    (if isAIDifficulty (e₀.getOpt "difficulty") then e₀.getOpt "difficulty" else js "mixed")
    from rfl]
  rw [show (feedbackBuild now e₀).getOpt "style" =
    (if isAIQuestionStyle (e₀.getOpt "style") then e₀.getOpt "style" else js "comprehension")
    from rfl]
  rw [show (feedbackBuild now e₀).getOpt "averageScore" =
    .num ((clampInt (e₀.getOpt "averageScore") 0 100 0 : ℤ) : ℚ) from rfl]
  rw [feedbackBuild_results]
  rw [nullish_nullish_str, difficulty_idem, style_idem]
  rw [clampInt_int_stable 0 100 0 (clampInt_mem _ 0 100 0 (by norm_num) (by norm_num)).1
    (clampInt_mem _ 0 100 0 (by norm_num) (by norm_num)).2]
  have hres : (((((((e₀.getOpt "results").asArray?).getD
          []).filter gradeResultPred).map gradeResultBuild).filter gradeResultPred).map
        gradeResultBuild) =
      (((((e₀.getOpt "results").asArray?).getD []).filter gradeResultPred).map
        gradeResultBuild) := by
    have hall : ∀ r ∈ (((((e₀.getOpt "results").asArray?).getD
        []).filter gradeResultPred).map gradeResultBuild), gradeResultPred r = true := by
      intro r hr
      rcases List.mem_map.mp hr with ⟨r₀, hr₀, rfl⟩
      exact gradeResultPred_build (List.mem_filter.mp hr₀).2
    rw [List.filter_eq_self.mpr hall]
    have hid : ∀ r ∈ (((((e₀.getOpt "results").asArray?).getD
        []).filter gradeResultPred).map gradeResultBuild), gradeResultBuild r = r := by
      intro r hr
      rcases List.mem_map.mp hr with ⟨r₀, _, rfl⟩
      exact gradeResultBuild_stable r₀
    rw [List.map_congr_left hid]
    exact List.map_id' _
  unfold feedbackBuild
  rw [show (JVal.arr (((((e₀.getOpt "results").asArray?).getD
        []).filter gradeResultPred).map gradeResultBuild)).asArray? =
    some (((((e₀.getOpt "results").asArray?).getD []).filter gradeResultPred).map
      gradeResultBuild) from rfl]
  rw [show ∀ xs : List JVal, (some xs).getD ([] : List JVal) = xs from fun _ => rfl]
  rw [hres]

theorem feedbackPred_build {bids cids : List JVal} {e₀ : JVal}
    (hp : feedbackPred bids cids e₀ = true) (now : List Char) :
    feedbackPred bids cids (feedbackBuild now e₀) = true := by
  simp only [feedbackPred, Bool.and_eq_true] at hp
  obtain ⟨⟨⟨⟨⟨⟨_, h2⟩, h3⟩, h4⟩, h5⟩, h6⟩, _⟩ := hp
  simp only [feedbackPred, Bool.and_eq_true]
  refine ⟨⟨⟨⟨⟨⟨rfl, ?_⟩, ?_⟩, ?_⟩, ?_⟩, ?_⟩, ?_⟩
  · rw [show (feedbackBuild now e₀).getOpt "id" = e₀.getOpt "id" from rfl]
    exact h2
  · rw [feedbackBuild_getOpt_bookId]; exact h3
  · rw [feedbackBuild_getOpt_bookId]; exact h4
  · rw [feedbackBuild_getOpt_chapterId]; exact h5
  · rw [feedbackBuild_getOpt_chapterId]; exact h6
  · rw [feedbackBuild_results]
    rfl

theorem normalizeUserData_eq_some {now : List Char} {raw u : JVal} :
    normalizeUserData now raw = some u ↔
      ∃ bookIds chapters chapterIds qas,
        idsOf (booksOf raw) = some bookIds ∧
        chaptersOf raw bookIds = some chapters ∧
        idsOf chapters = some chapterIds ∧
        qasOf raw chapterIds = some qas ∧
        u = assembleOutput (booksOf raw) chapters qas (historyOf raw)
          (selectedOf (raw.getOpt "aiCoach") bookIds chapters).1
          (selectedOf (raw.getOpt "aiCoach") bookIds chapters).2
          (lastConfigOf (raw.getOpt "aiCoach"))
          (genQsOf now (raw.getOpt "aiCoach") chapterIds)
          (draftsOf now (raw.getOpt "aiCoach") chapterIds
            ((genQsOf now (raw.getOpt "aiCoach") chapterIds).map (fun q => q.getOpt "id")))
          (feedbackOf now (raw.getOpt "aiCoach") bookIds chapterIds) := by
  simp only [normalizeUserData, Option.bind_eq_bind, Option.bind_eq_some, Option.pure_def,
    Option.some.injEq]
  constructor
  · rintro ⟨bookIds, h1, chapters, h2, chapterIds, h3, qas, h4, h5⟩
    exact ⟨bookIds, chapters, chapterIds, qas, h1, h2, h3, h4, h5.symm⟩
  · rintro ⟨bookIds, chapters, chapterIds, qas, h1, h2, h3, h4, h5⟩
    exact ⟨bookIds, h1, chapters, h2, chapterIds, h3, qas, h4, h5.symm⟩

theorem tryCandidates_eq (p : List Char → Option JVal) (l : List (List Char)) :
    tryCandidates p l =
      (l.findSome? p).elim (Except.error (502, "Provider did not return valid JSON.")) Except.ok := by
  induction l with
  | nil => simp [tryCandidates, List.findSome?_nil]
  | cons c rest ih =>
    rw [tryCandidates, List.findSome?_cons]
    cases p c <;> simp [ih]

/-! ## Claims C6–C10 -/

/-- C6: for every grading request and parsed provider payload, each normalized
result row's `questionId` equals the `questionId` of some entry of the
request's `answers` list, and its score is an integer (the model's `score`
field is an integer by construction, faithfully to `Math.round`) in the range
`[0, 100]` — whatever the upstream `score` field holds. -/
theorem normalizeGrades_spec (parsed : JVal) (answers : List GradeAnswer)
    (r : GradeRow) (hr : r ∈ normalizeGrades parsed answers) :
    (∃ a ∈ answers, r.questionId = a.questionId) ∧ 0 ≤ r.score ∧ r.score ≤ 100 := by
  unfold normalizeGrades at hr
  rcases List.mem_map.mp hr with ⟨full, hfull, hproj⟩
  have h := normGLoop_mem answers _ full hfull
  subst hproj
  exact h

/-- C6 witness: a grading payload with an out-of-range score (`150`) and a
non-numeric score (`"abc"`), both rows matching request answers. -/
theorem normalizeGrades_spec_witness :
    (∃ a ∈ [(⟨"q1".data, "Why?".data, "Because.".data⟩ : GradeAnswer),
        ⟨"q2".data, "Q2".data, "A2".data⟩],
      ("q1".data : List Char) = a.questionId) ∧
      (0 : ℤ) ≤ 100 ∧ (100 : ℤ) ≤ 100 :=
  have h := normalizeGrades_spec
    (JVal.obj [("results", JVal.arr
      [JVal.obj [("questionId", js "q1"), ("score", JVal.num 150)],
       JVal.obj [("questionId", js "q2"), ("score", js "abc")]])])
    [⟨"q1".data, "Why?".data, "Because.".data⟩, ⟨"q2".data, "Q2".data, "A2".data⟩]
    ⟨"q1".data, 100, [], []⟩ (by decide)
  ⟨h.1, h.2⟩

/-- C7: `parseModelJson` tries, in order, the (trimmed, clamped) text as-is,
the fenced-code-block capture, and the first-`{`-to-last-`}` substring
(`attempts`); it returns the first candidate the JSON parser accepts, and
fails with the "Provider did not return valid JSON." error exactly when no
candidate parses. -/
theorem parseModelJson_spec (p : List Char → Option JVal) (content : List Char) :
    parseModelJson p content =
        ((attempts content).findSome? p).elim
          (Except.error (502, "Provider did not return valid JSON.")) Except.ok ∧
      (parseModelJson p content = Except.error (502, "Provider did not return valid JSON.") ↔
        ∀ c ∈ attempts content, p c = none) := by
  have h1 : parseModelJson p content =
      ((attempts content).findSome? p).elim
        (Except.error (502, "Provider did not return valid JSON.")) Except.ok :=
    tryCandidates_eq p (attempts content)
  refine ⟨h1, ?_⟩
  rw [h1]
  cases hf : (attempts content).findSome? p with
  | none =>
    constructor
    · intro _
      exact List.findSome?_eq_none_iff.mp hf
    · intro _
      rfl
  | some v =>
    constructor
    · intro h
      simp [Option.elim] at h
    · intro hall
      rcases List.exists_of_findSome?_eq_some hf with ⟨c, hc, hpc⟩
      rw [hall c hc] at hpc
      cases hpc

/-- C8: deleting a book `B` in one state replacement removes every chapter of
`B`, every QA, generated question, draft answer and feedback entry whose
`chapterId` belonged to a removed chapter, and clears the selected-book /
selected-chapter pointers when they referenced `B` or a removed chapter. -/
theorem deleteBookUpdate_spec (d : UserData) (bookId : String) :
    (∀ ch ∈ (deleteBookUpdate bookId d).chapters, ch.bookId ≠ bookId) ∧
      (∀ qa ∈ (deleteBookUpdate bookId d).qas,
        qa.chapterId ∉ ((d.chapters.filter (fun c => c.bookId == bookId)).map ChapterEntry.id)) ∧
      (∀ q ∈ (deleteBookUpdate bookId d).aiCoach.generatedQuestions,
        q.chapterId ∉ ((d.chapters.filter (fun c => c.bookId == bookId)).map ChapterEntry.id)) ∧
      (∀ a ∈ (deleteBookUpdate bookId d).aiCoach.draftAnswers,
        a.chapterId ∉ ((d.chapters.filter (fun c => c.bookId == bookId)).map ChapterEntry.id)) ∧
      (∀ e ∈ (deleteBookUpdate bookId d).aiCoach.feedbackHistory,
        e.chapterId ∉ ((d.chapters.filter (fun c => c.bookId == bookId)).map ChapterEntry.id)) ∧
      (d.aiCoach.selectedBookId = some bookId →
        (deleteBookUpdate bookId d).aiCoach.selectedBookId = none) ∧
      (∀ c, d.aiCoach.selectedChapterId = some c →
        c ∈ ((d.chapters.filter (fun c => c.bookId == bookId)).map ChapterEntry.id) →
        (deleteBookUpdate bookId d).aiCoach.selectedChapterId = none) := by
  refine ⟨?_, ?_, ?_, ?_, ?_, ?_, ?_⟩
  · intro ch hch
    have := (List.mem_filter.mp hch).2
    simpa using this
  · intro qa hqa
    have := (List.mem_filter.mp hqa).2
    simpa using this
  · intro q hq
    have := (List.mem_filter.mp hq).2
    simpa using this
  · intro a ha
    have := (List.mem_filter.mp ha).2
    simpa using this
  · intro e he
    have := (List.mem_filter.mp he).2
    simpa using this
  · intro h
    simp [deleteBookUpdate, h]
  · intro c hc hmem
    have hcontains :
        ((d.chapters.filter (fun c => c.bookId == bookId)).map ChapterEntry.id).contains
          (d.aiCoach.selectedChapterId.getD "") = true := by
      rw [hc]
      exact List.elem_eq_true_of_mem hmem
    have hproj : (deleteBookUpdate bookId d).aiCoach.selectedChapterId =
        (if ((d.chapters.filter (fun c => c.bookId == bookId)).map ChapterEntry.id).contains
            (d.aiCoach.selectedChapterId.getD "") then none
         else d.aiCoach.selectedChapterId) := rfl
    rw [hproj, if_pos hcontains]

/-- C8 witness: a concrete two-book state where deleting `b1` cascades. -/
theorem deleteBookUpdate_spec_witness :
    (∀ ch ∈ (deleteBookUpdate "b1" ⟨[{ id := "b1", title := "t", author := "a" },
          { id := "b2", title := "t", author := "a" }],
        [{ id := "c1", bookId := "b1" }, { id := "c2", bookId := "b2" }],
        [{ id := "qa1", chapterId := "c1" }, { id := "qa2", chapterId := "c2" }],
        [],
        { selectedBookId := some "b1", selectedChapterId := some "c1",
          generatedQuestions := [{ id := "g1", chapterId := "c1" }],
          draftAnswers := [{ chapterId := "c1", questionId := "g1" }],
          feedbackHistory := [{ id := "f1", bookId := "b1", chapterId := "c1" }] }⟩).chapters,
      ch.bookId ≠ "b1") ∧
    (deleteBookUpdate "b1" ⟨[{ id := "b1", title := "t", author := "a" },
          { id := "b2", title := "t", author := "a" }],
        [{ id := "c1", bookId := "b1" }, { id := "c2", bookId := "b2" }],
        [{ id := "qa1", chapterId := "c1" }, { id := "qa2", chapterId := "c2" }],
        [],
        { selectedBookId := some "b1", selectedChapterId := some "c1",
          generatedQuestions := [{ id := "g1", chapterId := "c1" }],
          draftAnswers := [{ chapterId := "c1", questionId := "g1" }],
          feedbackHistory := [{ id := "f1", bookId := "b1", chapterId := "c1" }] }⟩).aiCoach.selectedBookId
      = none :=
  have h := deleteBookUpdate_spec ⟨[{ id := "b1", title := "t", author := "a" },
        { id := "b2", title := "t", author := "a" }],
      [{ id := "c1", bookId := "b1" }, { id := "c2", bookId := "b2" }],
      [{ id := "qa1", chapterId := "c1" }, { id := "qa2", chapterId := "c2" }],
      [],
      { selectedBookId := some "b1", selectedChapterId := some "c1",
        generatedQuestions := [{ id := "g1", chapterId := "c1" }],
        draftAnswers := [{ chapterId := "c1", questionId := "g1" }],
        feedbackHistory := [{ id := "f1", bookId := "b1", chapterId := "c1" }] }⟩ "b1"
  ⟨h.1, h.2.2.2.2.2.1 rfl⟩

/-- C9: after a successful generation for chapter `C` (with every normalized
question carrying `chapterId = C`), the stored generated questions with
`chapterId = C` are exactly the new ones, questions of every other chapter are
unchanged, and exactly the draft answers of `C` are removed. -/
theorem generateSuccessUpdate_spec (prev : UserData) (bookId chapterId : String)
    (normalized : List AIGeneratedQuestion)
    (hns : ∀ q ∈ normalized, q.chapterId = chapterId) :
    ((generateSuccessUpdate bookId chapterId normalized prev).aiCoach.generatedQuestions.filter
        (fun q => q.chapterId == chapterId) = normalized) ∧
      (∀ c, c ≠ chapterId →
        (generateSuccessUpdate bookId chapterId normalized prev).aiCoach.generatedQuestions.filter
            (fun q => q.chapterId == c) =
          prev.aiCoach.generatedQuestions.filter (fun q => q.chapterId == c)) ∧
      ((generateSuccessUpdate bookId chapterId normalized prev).aiCoach.draftAnswers =
        prev.aiCoach.draftAnswers.filter (fun a => !(a.chapterId == chapterId))) := by
  refine ⟨?_, ?_, rfl⟩
  · show ((normalized ++ _).filter _) = _
    rw [List.filter_append]
    have h1 : normalized.filter (fun q => q.chapterId == chapterId) = normalized :=
      List.filter_eq_self.mpr (fun q hq => by simp [hns q hq])
    have h2 : ((prev.aiCoach.generatedQuestions.filter
        (fun q => !(q.chapterId == chapterId))).filter (fun q => q.chapterId == chapterId)) = [] := by
      rw [List.filter_eq_nil_iff]
      intro q hq
      have := (List.mem_filter.mp hq).2
      simp_all
    rw [h1, h2, List.append_nil]
  · intro c hc
    show ((normalized ++ _).filter _) = _
    rw [List.filter_append]
    have h1 : normalized.filter (fun q => q.chapterId == c) = [] := by
      rw [List.filter_eq_nil_iff]
      intro q hq
      rw [hns q hq]
      simp
      exact fun h => hc h.symm
    rw [h1, List.nil_append, List.filter_filter]
    apply List.filter_congr
    intro q _
    by_cases h : q.chapterId = c
    · have hne : ¬ (q.chapterId = chapterId) := by rw [h]; exact hc
      simp only [h, hne]
      simp [hc]
    · simp [h]

/-- C9 witness: concrete instantiation with one fresh question for `c1` and
stale artifacts for `c1` and `c2`. -/
theorem generateSuccessUpdate_spec_witness :
    (((generateSuccessUpdate "b1" "c1" [{ id := "n1", chapterId := "c1" }]
        ⟨[], [], [], [],
          { generatedQuestions := [{ id := "old1", chapterId := "c1" },
              { id := "old2", chapterId := "c2" }],
            draftAnswers := [{ chapterId := "c1", questionId := "old1" },
              { chapterId := "c2", questionId := "old2" }] }⟩).aiCoach.generatedQuestions.filter
        (fun q => q.chapterId == "c1")) = [{ id := "n1", chapterId := "c1" }]) ∧
      (∀ c, c ≠ "c1" →
        ((generateSuccessUpdate "b1" "c1" [{ id := "n1", chapterId := "c1" }]
          ⟨[], [], [], [],
            { generatedQuestions := [{ id := "old1", chapterId := "c1" },
                { id := "old2", chapterId := "c2" }],
              draftAnswers := [{ chapterId := "c1", questionId := "old1" },
                { chapterId := "c2", questionId := "old2" }] }⟩).aiCoach.generatedQuestions.filter
            (fun q => q.chapterId == c)) =
          ([{ id := "old1", chapterId := "c1" },
            { id := "old2", chapterId := "c2" }] : List AIGeneratedQuestion).filter
            (fun q => q.chapterId == c)) ∧
      ((generateSuccessUpdate "b1" "c1" [{ id := "n1", chapterId := "c1" }]
        ⟨[], [], [], [],
          { generatedQuestions := [{ id := "old1", chapterId := "c1" },
              { id := "old2", chapterId := "c2" }],
            draftAnswers := [{ chapterId := "c1", questionId := "old1" },
              { chapterId := "c2", questionId := "old2" }] }⟩).aiCoach.draftAnswers =
        ([{ chapterId := "c1", questionId := "old1" },
          { chapterId := "c2", questionId := "old2" }] : List AIDraftAnswer).filter
          (fun a => !(a.chapterId == "c1"))) :=
  generateSuccessUpdate_spec
    ⟨[], [], [], [],
      { generatedQuestions := [{ id := "old1", chapterId := "c1" },
          { id := "old2", chapterId := "c2" }],
        draftAnswers := [{ chapterId := "c1", questionId := "old1" },
          { chapterId := "c2", questionId := "old2" }] }⟩
    "b1" "c1" [{ id := "n1", chapterId := "c1" }] (by decide)

/-- C10: `pushHistory` prepends the new event and truncates the stored history
to at most 2000 entries, so the history never exceeds 2000 entries after an
event-appending action. -/
theorem pushHistoryUpdate_spec (nextEvent : HistoryEvent) (d : UserData) :
    (pushHistoryUpdate nextEvent d).history.length ≤ 2000 ∧
      (pushHistoryUpdate nextEvent d).history.head? = some nextEvent ∧
      (pushHistoryUpdate nextEvent d).history.tail = d.history.take 1999 := by
  refine ⟨?_, ?_, ?_⟩
  · simp [pushHistoryUpdate, List.length_take]
  · simp [pushHistoryUpdate, List.take_succ_cons]
  · simp [pushHistoryUpdate, List.take_succ_cons]

/-! ## Claims C3 and C4 -/

/-- C3 counterexample: a persisted blob whose `books` array contains `null`.
`books.map((b) => b.id)` then throws a `TypeError`, so `normalizeUserData`
does not return a value. -/
theorem normalizeUserData_throw_counterexample :
    normalizeUserData "T".data (JVal.obj [("books", JVal.arr [JVal.null])]) = none := by
  decide

/-- C3 (amended): `normalizeUserData` returns without throwing for every input
blob in which no element of the `books`, `chapters` or `qas` arrays is `null`
or `undefined`; any other field of unexpected type (including non-object
entries of those arrays, the `aiCoach` sub-object and everything inside it) is
treated as absent/default.  On a `null`/`undefined` array entry the property
accesses `b.id` / `ch.bookId` / `qa.chapterId` throw. -/
theorem normalizeUserData_nothrow (now : List Char) (raw : JVal)
    (hb : ∀ b ∈ booksOf raw, b ≠ JVal.null ∧ b ≠ JVal.undef)
    (hc : ∀ ch ∈ ((raw.getOpt "chapters").asArray?).getD [], ch ≠ JVal.null ∧ ch ≠ JVal.undef)
    (hq : ∀ qa ∈ ((raw.getOpt "qas").asArray?).getD [], qa ≠ JVal.null ∧ qa ≠ JVal.undef) :
    (normalizeUserData now raw).isSome := by
  have h1 := idsOf_nonnull hb
  have h2 := @chaptersOf_isSome raw ((booksOf raw).map (fun x => x.getOpt "id")) hc
  rcases Option.isSome_iff_exists.mp h2 with ⟨chapters, hch⟩
  have hchmem := chaptersOf_mem hch
  have h3 : idsOf chapters = some (chapters.map (fun x => x.getOpt "id")) :=
    idsOf_nonnull (fun ch hm => ⟨(hchmem ch hm).2.1, (hchmem ch hm).2.2.1⟩)
  have h4 := @qasOf_isSome raw (chapters.map (fun x => x.getOpt "id")) hq
  rcases Option.isSome_iff_exists.mp h4 with ⟨qas, hqa⟩
  rw [Option.isSome_iff_exists]
  refine ⟨_, normalizeUserData_eq_some.mpr ⟨_, _, _, _, h1, hch, h3, hqa, rfl⟩⟩

/-- C3 witness: a blob with a number in the `qas` array (an unexpected type
that is simply dropped) still normalizes. -/
theorem normalizeUserData_nothrow_witness :
    (normalizeUserData "T".data (JVal.obj
      [("books", JVal.arr [JVal.obj [("id", js "b1")]]),
       ("chapters", JVal.arr [JVal.obj [("id", js "c1"), ("bookId", js "b1")]]),
       ("qas", JVal.arr [JVal.num 5])])).isSome :=
  normalizeUserData_nothrow "T".data
    (JVal.obj
      [("books", JVal.arr [JVal.obj [("id", js "b1")]]),
       ("chapters", JVal.arr [JVal.obj [("id", js "c1"), ("bookId", js "b1")]]),
       ("qas", JVal.arr [JVal.num 5])])
    (by decide) (by decide) (by decide)

/-- C4: every value produced by `normalizeUserData` satisfies cascading
referential integrity: each retained chapter's `bookId` is the `id` of a
retained book; each retained QA's and generated question's `chapterId` is the
`id` of a retained chapter; each retained draft answer references a retained
chapter and a retained generated question; each retained feedback entry
references a retained book and a retained chapter.  (Entries violating any of
these are dropped: nothing violating them occurs in the output.) -/
theorem normalizeUserData_integrity (now : List Char) (raw u : JVal)
    (h : normalizeUserData now raw = some u) :
    (∀ ch ∈ outChapters u, ∃ b ∈ outBooks u, ch.getOpt "bookId" = b.getOpt "id") ∧
      (∀ qa ∈ outQas u, ∃ ch ∈ outChapters u, qa.getOpt "chapterId" = ch.getOpt "id") ∧
      (∀ q ∈ outGenQs u, ∃ ch ∈ outChapters u, q.getOpt "chapterId" = ch.getOpt "id") ∧
      (∀ a ∈ outDrafts u,
        (∃ ch ∈ outChapters u, a.getOpt "chapterId" = ch.getOpt "id") ∧
          (∃ g ∈ outGenQs u, a.getOpt "questionId" = g.getOpt "id")) ∧
      (∀ e ∈ outFeedback u,
        (∃ b ∈ outBooks u, e.getOpt "bookId" = b.getOpt "id") ∧
          (∃ ch ∈ outChapters u, e.getOpt "chapterId" = ch.getOpt "id")) := by
  rcases normalizeUserData_eq_some.mp h with
    ⟨bookIds, chapters, chapterIds, qas, h1, h2, h3, h4, rfl⟩
  rw [assembleOutput_chapters, assembleOutput_books, assembleOutput_qas, assembleOutput_genQs,
    assembleOutput_drafts, assembleOutput_feedback]
  refine ⟨?_, ?_, ?_, ?_, ?_⟩
  · intro ch hch
    have hm := (chaptersOf_mem h2 ch hch).2.2.2
    rcases idsOf_mem h1 (jmem_iff.mp hm) with ⟨b, hb, hbid⟩
    exact ⟨b, hb, hbid.symm⟩
  · intro qa hqa
    have hm := (qasOf_mem h4 qa hqa).2.2
    rcases idsOf_mem h3 (jmem_iff.mp hm) with ⟨ch, hch, hcid⟩
    exact ⟨ch, hch, hcid.symm⟩
  · intro q hq
    rcases genQsOf_mem hq with ⟨q₀, hpred, rfl⟩
    have hm : jmem (q₀.getOpt "chapterId") chapterIds = true := by
      simp only [genQPred, Bool.and_eq_true] at hpred
      exact hpred.1.1.2
    rcases idsOf_mem h3 (jmem_iff.mp hm) with ⟨ch, hch, hcid⟩
    exact ⟨ch, hch, by rw [genQBuild_getOpt_chapterId, hcid]⟩
  · intro a ha
    rcases draftsOf_mem ha with ⟨a₀, hpred, rfl⟩
    simp only [draftPred, Bool.and_eq_true] at hpred
    constructor
    · rcases idsOf_mem h3 (jmem_iff.mp hpred.1.1.1.1.2) with ⟨ch, hch, hcid⟩
      exact ⟨ch, hch, by rw [draftBuild_getOpt_chapterId, hcid]⟩
    · rcases List.mem_map.mp (jmem_iff.mp hpred.1.1.2) with ⟨g, hg, hgid⟩
      exact ⟨g, hg, by rw [draftBuild_getOpt_questionId, hgid]⟩
  · intro e he
    rcases feedbackOf_mem he with ⟨e₀, hpred, rfl⟩
    simp only [feedbackPred, Bool.and_eq_true] at hpred
    constructor
    · rcases idsOf_mem h1 (jmem_iff.mp hpred.1.1.1.2) with ⟨b, hb, hbid⟩
      exact ⟨b, hb, by rw [feedbackBuild_getOpt_bookId, hbid]⟩
    · rcases idsOf_mem h3 (jmem_iff.mp hpred.1.2) with ⟨ch, hch, hcid⟩
      exact ⟨ch, hch, by rw [feedbackBuild_getOpt_chapterId, hcid]⟩

/-- C4 witness: the integrity theorem applied to a blob carrying one of every
entity kind plus dangling references of every kind. -/
theorem normalizeUserData_integrity_witness :
    (∀ ch ∈ outChapters (assembleOutput
        [JVal.obj [("id", js "b1")]]
        [JVal.obj [("id", js "c1"), ("bookId", js "b1")]]
        [JVal.obj [("id", js "qa1"), ("chapterId", js "c1")]] []
        JVal.undef JVal.undef
        (lastConfigOf JVal.undef) [] [] []),
      ∃ b ∈ outBooks (assembleOutput
        [JVal.obj [("id", js "b1")]]
        [JVal.obj [("id", js "c1"), ("bookId", js "b1")]]
        [JVal.obj [("id", js "qa1"), ("chapterId", js "c1")]] []
        JVal.undef JVal.undef
        (lastConfigOf JVal.undef) [] [] []),
        ch.getOpt "bookId" = b.getOpt "id") ∧
      (∀ qa ∈ outQas (assembleOutput
        [JVal.obj [("id", js "b1")]]
        [JVal.obj [("id", js "c1"), ("bookId", js "b1")]]
        [JVal.obj [("id", js "qa1"), ("chapterId", js "c1")]] []
        JVal.undef JVal.undef
        (lastConfigOf JVal.undef) [] [] []),
        ∃ ch ∈ outChapters (assembleOutput
          [JVal.obj [("id", js "b1")]]
          [JVal.obj [("id", js "c1"), ("bookId", js "b1")]]
          [JVal.obj [("id", js "qa1"), ("chapterId", js "c1")]] []
          JVal.undef JVal.undef
          (lastConfigOf JVal.undef) [] [] []),
          qa.getOpt "chapterId" = ch.getOpt "id") := by
  have h := normalizeUserData_integrity "T".data
    (JVal.obj
      [("books", JVal.arr [JVal.obj [("id", js "b1")]]),
       ("chapters", JVal.arr
         [JVal.obj [("id", js "c1"), ("bookId", js "b1")],
          JVal.obj [("id", js "c2"), ("bookId", js "nope")]]),
       ("qas", JVal.arr
         [JVal.obj [("id", js "qa1"), ("chapterId", js "c1")],
          JVal.obj [("id", js "qa2"), ("chapterId", js "nope")]])])
    (assembleOutput
      [JVal.obj [("id", js "b1")]]
      [JVal.obj [("id", js "c1"), ("bookId", js "b1")]]
      [JVal.obj [("id", js "qa1"), ("chapterId", js "c1")]] []
      JVal.undef JVal.undef
      (lastConfigOf JVal.undef) [] [] [])
    (by decide)
  exact ⟨h.1, h.2.1⟩

/-! ## Claim C2 -/

/-- C2 counterexample: a stored generated question whose text is 500 spaces
followed by `"X"`.  One normalization keeps it (the text has non-whitespace
content) but clamps it to 500 characters — all spaces; a second normalization
then drops the now-whitespace-only question, so `normalize ∘ normalize ≠
normalize` at this blob. -/
theorem normalizeUserData_not_idempotent :
    ((normalizeUserData "M".data (JVal.obj
        [("books", JVal.arr [JVal.obj [("id", js "b1")]]),
         ("chapters", JVal.arr [JVal.obj [("id", js "c1"), ("bookId", js "b1")]]),
         ("aiCoach", JVal.obj [("generatedQuestions", JVal.arr
           [JVal.obj [("id", js "g1"), ("chapterId", js "c1"),
              ("question", JVal.str (List.replicate 500 ' ' ++ "X".data)),
              ("createdAt", js "t"),
              ("difficulty", js "easy"), ("style", js "mixed")]])])])).bind
      (normalizeUserData "M".data)) ≠
      normalizeUserData "M".data (JVal.obj
        [("books", JVal.arr [JVal.obj [("id", js "b1")]]),
         ("chapters", JVal.arr [JVal.obj [("id", js "c1"), ("bookId", js "b1")]]),
         ("aiCoach", JVal.obj [("generatedQuestions", JVal.arr
           [JVal.obj [("id", js "g1"), ("chapterId", js "c1"),
              ("question", JVal.str (List.replicate 500 ' ' ++ "X".data)),
              ("createdAt", js "t"),
              ("difficulty", js "easy"), ("style", js "mixed")]])])]) := by
  decide

/-- C2 (amended): `normalizeUserData` is idempotent on every blob whose
normalized output contains no generated-question text and no draft-answer
text that is whitespace-only (texts become whitespace-only exactly when the
500/10000-character truncation cuts off all non-whitespace content): for such
a blob, re-normalizing the output — with any later `nowISO()` value — returns
it unchanged. -/
theorem normalizeUserData_idem (now now₂ : List Char) (raw u : JVal)
    (h : normalizeUserData now raw = some u)
    (hgq : ∀ q ∈ outGenQs u, jsTrim ((q.getOpt "question").strVal) ≠ [])
    (hda : ∀ a ∈ outDrafts u, jsTrim ((a.getOpt "answer").strVal) ≠ []) :
    normalizeUserData now₂ u = some u := by
  rcases normalizeUserData_eq_some.mp h with
    ⟨bookIds, chapters, chapterIds, qas, h1, h2, h3, h4, rfl⟩
  apply normalizeUserData_eq_some.mpr
  refine ⟨bookIds, chapters, chapterIds, qas, h1, ?_, h3, ?_, ?_⟩
  · exact chaptersOf_stable
      (fun ch hch => ⟨(chaptersOf_mem h2 ch hch).2.1, (chaptersOf_mem h2 ch hch).2.2.1,
        (chaptersOf_mem h2 ch hch).2.2.2⟩) rfl
  · exact qasOf_stable (qasOf_mem h4) rfl
  · -- the rebuilt object equals the first-pass output, field by field
    have egq : genQsOf now₂
        ((assembleOutput (booksOf raw) chapters qas (historyOf raw)
          (selectedOf (raw.getOpt "aiCoach") bookIds chapters).1
          (selectedOf (raw.getOpt "aiCoach") bookIds chapters).2
          (lastConfigOf (raw.getOpt "aiCoach"))
          (genQsOf now (raw.getOpt "aiCoach") chapterIds)
          (draftsOf now (raw.getOpt "aiCoach") chapterIds
            ((genQsOf now (raw.getOpt "aiCoach") chapterIds).map (fun q => q.getOpt "id")))
          (feedbackOf now (raw.getOpt "aiCoach") bookIds chapterIds)).getOpt "aiCoach")
        chapterIds = genQsOf now (raw.getOpt "aiCoach") chapterIds := by
      apply genQsOf_stable
      · rfl
      · intro q hq
        rcases genQsOf_mem hq with ⟨q₀, hpred, rfl⟩
        exact genQPred_build hpred now (hgq _ hq)
      · intro q hq
        rcases genQsOf_mem hq with ⟨q₀, _, rfl⟩
        exact genQBuild_stable now now₂ q₀
    have eda : draftsOf now₂
        ((assembleOutput (booksOf raw) chapters qas (historyOf raw)
          (selectedOf (raw.getOpt "aiCoach") bookIds chapters).1
          (selectedOf (raw.getOpt "aiCoach") bookIds chapters).2
          (lastConfigOf (raw.getOpt "aiCoach"))
          (genQsOf now (raw.getOpt "aiCoach") chapterIds)
          (draftsOf now (raw.getOpt "aiCoach") chapterIds
            ((genQsOf now (raw.getOpt "aiCoach") chapterIds).map (fun q => q.getOpt "id")))
          (feedbackOf now (raw.getOpt "aiCoach") bookIds chapterIds)).getOpt "aiCoach")
        chapterIds
        ((genQsOf now (raw.getOpt "aiCoach") chapterIds).map (fun q => q.getOpt "id")) =
        draftsOf now (raw.getOpt "aiCoach") chapterIds
          ((genQsOf now (raw.getOpt "aiCoach") chapterIds).map (fun q => q.getOpt "id")) := by
      apply draftsOf_stable
      · rfl
      · intro a ha
        rcases draftsOf_mem ha with ⟨a₀, hpred, rfl⟩
        exact draftPred_build hpred now (hda _ ha)
      · intro a ha
        rcases draftsOf_mem ha with ⟨a₀, _, rfl⟩
        exact draftBuild_stable now now₂ a₀
    have efb : feedbackOf now₂
        ((assembleOutput (booksOf raw) chapters qas (historyOf raw)
          (selectedOf (raw.getOpt "aiCoach") bookIds chapters).1
          (selectedOf (raw.getOpt "aiCoach") bookIds chapters).2
          (lastConfigOf (raw.getOpt "aiCoach"))
          (genQsOf now (raw.getOpt "aiCoach") chapterIds)
          (draftsOf now (raw.getOpt "aiCoach") chapterIds
            ((genQsOf now (raw.getOpt "aiCoach") chapterIds).map (fun q => q.getOpt "id")))
          (feedbackOf now (raw.getOpt "aiCoach") bookIds chapterIds)).getOpt "aiCoach")
        bookIds chapterIds = feedbackOf now (raw.getOpt "aiCoach") bookIds chapterIds := by
      apply feedbackOf_stable
      · rfl
      · intro e he
        rcases feedbackOf_mem he with ⟨e₀, hpred, rfl⟩
        exact feedbackPred_build hpred now
      · intro e he
        rcases feedbackOf_mem he with ⟨e₀, _, rfl⟩
        exact feedbackBuild_stable now now₂ e₀
      · intro e he
        exact feedbackOf_mem_res he
      · exact feedbackOf_length_le now (raw.getOpt "aiCoach") bookIds chapterIds
    have esb : selBookOf
        ((assembleOutput (booksOf raw) chapters qas (historyOf raw)
          (selectedOf (raw.getOpt "aiCoach") bookIds chapters).1
          (selectedOf (raw.getOpt "aiCoach") bookIds chapters).2
          (lastConfigOf (raw.getOpt "aiCoach"))
          (genQsOf now (raw.getOpt "aiCoach") chapterIds)
          (draftsOf now (raw.getOpt "aiCoach") chapterIds
            ((genQsOf now (raw.getOpt "aiCoach") chapterIds).map (fun q => q.getOpt "id")))
          (feedbackOf now (raw.getOpt "aiCoach") bookIds chapterIds)).getOpt "aiCoach")
        bookIds = selBookOf (raw.getOpt "aiCoach") bookIds :=
      selBookOf_stable rfl
    have esc : selChapOf
        ((assembleOutput (booksOf raw) chapters qas (historyOf raw)
          (selectedOf (raw.getOpt "aiCoach") bookIds chapters).1
          (selectedOf (raw.getOpt "aiCoach") bookIds chapters).2
          (lastConfigOf (raw.getOpt "aiCoach"))
          (genQsOf now (raw.getOpt "aiCoach") chapterIds)
          (draftsOf now (raw.getOpt "aiCoach") chapterIds
            ((genQsOf now (raw.getOpt "aiCoach") chapterIds).map (fun q => q.getOpt "id")))
          (feedbackOf now (raw.getOpt "aiCoach") bookIds chapterIds)).getOpt "aiCoach")
        bookIds chapters = selChapOf (raw.getOpt "aiCoach") bookIds chapters :=
      selChapOf_stable rfl rfl
    have ecfg : lastConfigOf
        ((assembleOutput (booksOf raw) chapters qas (historyOf raw)
          (selectedOf (raw.getOpt "aiCoach") bookIds chapters).1
          (selectedOf (raw.getOpt "aiCoach") bookIds chapters).2
          (lastConfigOf (raw.getOpt "aiCoach"))
          (genQsOf now (raw.getOpt "aiCoach") chapterIds)
          (draftsOf now (raw.getOpt "aiCoach") chapterIds
            ((genQsOf now (raw.getOpt "aiCoach") chapterIds).map (fun q => q.getOpt "id")))
          (feedbackOf now (raw.getOpt "aiCoach") bookIds chapterIds)).getOpt "aiCoach") =
        lastConfigOf (raw.getOpt "aiCoach") :=
      lastConfigOf_stable rfl
    have ehist : historyOf
        (assembleOutput (booksOf raw) chapters qas (historyOf raw)
          (selectedOf (raw.getOpt "aiCoach") bookIds chapters).1
          (selectedOf (raw.getOpt "aiCoach") bookIds chapters).2
          (lastConfigOf (raw.getOpt "aiCoach"))
          (genQsOf now (raw.getOpt "aiCoach") chapterIds)
          (draftsOf now (raw.getOpt "aiCoach") chapterIds
            ((genQsOf now (raw.getOpt "aiCoach") chapterIds).map (fun q => q.getOpt "id")))
          (feedbackOf now (raw.getOpt "aiCoach") bookIds chapterIds)) = historyOf raw :=
      historyOf_stable historyOf_mem rfl
    rw [show (selectedOf ((assembleOutput (booksOf raw) chapters qas (historyOf raw)
        (selectedOf (raw.getOpt "aiCoach") bookIds chapters).1
        (selectedOf (raw.getOpt "aiCoach") bookIds chapters).2
        (lastConfigOf (raw.getOpt "aiCoach"))
        (genQsOf now (raw.getOpt "aiCoach") chapterIds)
        (draftsOf now (raw.getOpt "aiCoach") chapterIds
          ((genQsOf now (raw.getOpt "aiCoach") chapterIds).map (fun q => q.getOpt "id")))
        (feedbackOf now (raw.getOpt "aiCoach") bookIds chapterIds)).getOpt "aiCoach")
        bookIds chapters) =
      (selBookOf ((assembleOutput (booksOf raw) chapters qas (historyOf raw)
        (selectedOf (raw.getOpt "aiCoach") bookIds chapters).1
        (selectedOf (raw.getOpt "aiCoach") bookIds chapters).2
        (lastConfigOf (raw.getOpt "aiCoach"))
        (genQsOf now (raw.getOpt "aiCoach") chapterIds)
        (draftsOf now (raw.getOpt "aiCoach") chapterIds
          ((genQsOf now (raw.getOpt "aiCoach") chapterIds).map (fun q => q.getOpt "id")))
        (feedbackOf now (raw.getOpt "aiCoach") bookIds chapterIds)).getOpt "aiCoach") bookIds,
       selChapOf ((assembleOutput (booksOf raw) chapters qas (historyOf raw)
        (selectedOf (raw.getOpt "aiCoach") bookIds chapters).1
        (selectedOf (raw.getOpt "aiCoach") bookIds chapters).2
        (lastConfigOf (raw.getOpt "aiCoach"))
        (genQsOf now (raw.getOpt "aiCoach") chapterIds)
        (draftsOf now (raw.getOpt "aiCoach") chapterIds
          ((genQsOf now (raw.getOpt "aiCoach") chapterIds).map (fun q => q.getOpt "id")))
        (feedbackOf now (raw.getOpt "aiCoach") bookIds chapterIds)).getOpt "aiCoach")
        bookIds chapters) from rfl]
    rw [egq, eda, efb, esb, esc, ecfg, ehist]
    rfl

/-- C2 witness: a blob with one generated question and one draft answer whose
texts keep non-whitespace content after normalization; re-normalizing its
normalized form (with a different timestamp) is the identity. -/
theorem normalizeUserData_idem_witness :
    normalizeUserData "N".data
        ((normalizeUserData "M".data (JVal.obj
          [("books", JVal.arr [JVal.obj [("id", js "b1")]]),
           ("chapters", JVal.arr [JVal.obj [("id", js "c1"), ("bookId", js "b1")]]),
           ("aiCoach", JVal.obj
             [("generatedQuestions", JVal.arr
               [JVal.obj [("id", js "g1"), ("chapterId", js "c1"),
                  ("question", js "What happened?")]]),
              ("draftAnswers", JVal.arr
               [JVal.obj [("chapterId", js "c1"), ("questionId", js "g1"),
                  ("answer", js "It happened.")]])])])).getD JVal.undef) =
      some ((normalizeUserData "M".data (JVal.obj
          [("books", JVal.arr [JVal.obj [("id", js "b1")]]),
           ("chapters", JVal.arr [JVal.obj [("id", js "c1"), ("bookId", js "b1")]]),
           ("aiCoach", JVal.obj
             [("generatedQuestions", JVal.arr
               [JVal.obj [("id", js "g1"), ("chapterId", js "c1"),
                  ("question", js "What happened?")]]),
              ("draftAnswers", JVal.arr
               [JVal.obj [("chapterId", js "c1"), ("questionId", js "g1"),
                  ("answer", js "It happened.")]])])])).getD JVal.undef) := by
  exact normalizeUserData_idem "M".data "N".data
    (JVal.obj
      [("books", JVal.arr [JVal.obj [("id", js "b1")]]),
       ("chapters", JVal.arr [JVal.obj [("id", js "c1"), ("bookId", js "b1")]]),
       ("aiCoach", JVal.obj
         [("generatedQuestions", JVal.arr
           [JVal.obj [("id", js "g1"), ("chapterId", js "c1"),
              ("question", js "What happened?")]]),
          ("draftAnswers", JVal.arr
           [JVal.obj [("chapterId", js "c1"), ("questionId", js "g1"),
              ("answer", js "It happened.")]])])])
    ((normalizeUserData "M".data (JVal.obj
      [("books", JVal.arr [JVal.obj [("id", js "b1")]]),
       ("chapters", JVal.arr [JVal.obj [("id", js "c1"), ("bookId", js "b1")]]),
       ("aiCoach", JVal.obj
         [("generatedQuestions", JVal.arr
           [JVal.obj [("id", js "g1"), ("chapterId", js "c1"),
              ("question", js "What happened?")]]),
          ("draftAnswers", JVal.arr
           [JVal.obj [("chapterId", js "c1"), ("questionId", js "g1"),
              ("answer", js "It happened.")]])])])).getD JVal.undef)
    (by decide) (by decide) (by decide)

/-! ## Claim C5 -/

/-- C5 counterexample: the stored `selectedChapterId` (`"zzz"`) does not
resolve, yet the output pointer is not cleared — it falls back to the first
retained chapter (`"c1"`) of the selected book (this fallback is also asserted
by the repository's own test in `tests/data.test.ts`). -/
theorem selectedChapter_counterexample :
    (normalizeUserData "T".data (JVal.obj
        [("books", JVal.arr [JVal.obj [("id", js "b1")]]),
         ("chapters", JVal.arr [JVal.obj [("id", js "c1"), ("bookId", js "b1")]]),
         ("aiCoach", JVal.obj
           [("selectedBookId", js "b1"),
            ("selectedChapterId", js "zzz")])])).map outSelectedChapterId =
      some (js "c1") ∧ js "c1" ≠ JVal.undef := by
  constructor
  · decide
  · decide

/-- C5 (amended): a stored `selectedBookId` that does not identify a retained
book is cleared (`undefined`); when no (truthy) book is selected the output
`selectedChapterId` is `undefined`; but a stored `selectedChapterId` that does
not identify a retained chapter of the (truthy) selected book is **not**
cleared — it is replaced by the id of the first retained chapter of the
selected book, or `undefined` when that book has no retained chapter. -/
theorem normalizeUserData_selected (now : List Char) (raw u : JVal)
    (h : normalizeUserData now raw = some u) :
    ((¬ (((raw.getOpt "aiCoach").getOpt "selectedBookId").isString = true ∧
        (raw.getOpt "aiCoach").getOpt "selectedBookId" ∈
          (outBooks u).map (fun b => b.getOpt "id"))) →
      outSelectedBookId u = JVal.undef) ∧
      ((outSelectedBookId u).truthy = false → outSelectedChapterId u = JVal.undef) ∧
      ((outSelectedBookId u).truthy = true →
        (¬ (((raw.getOpt "aiCoach").getOpt "selectedChapterId").isString = true ∧
            ((raw.getOpt "aiCoach").getOpt "selectedChapterId").truthy = true ∧
            ∃ ch ∈ outChapters u,
              ch.getOpt "bookId" = outSelectedBookId u ∧
                ch.getOpt "id" = (raw.getOpt "aiCoach").getOpt "selectedChapterId")) →
        outSelectedChapterId u =
          ((outChapters u).find?
              (fun ch => decide (ch.getOpt "bookId" = outSelectedBookId u))).elim
            JVal.undef (fun ch => ch.getOpt "id")) := by
  rcases normalizeUserData_eq_some.mp h with
    ⟨bookIds, chapters, chapterIds, qas, h1, h2, h3, h4, rfl⟩
  rw [assembleOutput_selBook, assembleOutput_selChap, assembleOutput_books,
    assembleOutput_chapters]
  simp only [selectedOf]
  refine ⟨?_, ?_, ?_⟩
  · intro hres
    rw [selBookOf]
    rw [if_neg]
    intro hcond
    rcases Bool.and_eq_true_iff.mp hcond with ⟨hstr, hmem⟩
    refine hres ⟨hstr, ?_⟩
    rw [← idsOf_eq_map h1]
    exact jmem_iff.mp hmem
  · intro hfalse
    rw [selChapOf, if_neg, if_neg]
    · rw [hfalse]; simp
    · rw [hfalse]; simp
  · intro htrue hres
    rw [selChapOf, if_neg, if_pos htrue]
    · cases hfind : chapters.find?
          (fun ch => decide (ch.getOpt "bookId" = selBookOf (raw.getOpt "aiCoach") bookIds)) with
      | none => rfl
      | some ch => rfl
    · intro hcond
      rcases Bool.and_eq_true_iff.mp hcond with ⟨hcond', hany⟩
      rcases Bool.and_eq_true_iff.mp hcond' with ⟨_, hscr⟩
      have hisstr : ((raw.getOpt "aiCoach").getOpt "selectedChapterId").isString = true := by
        by_contra hns
        rw [selChapRawOf, if_neg hns] at hscr
        cases hscr
      rw [selChapRawOf, if_pos hisstr] at hscr hany
      rcases List.any_eq_true.mp hany with ⟨ch, hch, hchcond⟩
      rcases Bool.and_eq_true_iff.mp hchcond with ⟨hb, hi⟩
      exact hres ⟨hisstr, hscr, ch, hch, of_decide_eq_true hb, of_decide_eq_true hi⟩

/-- C5 witness: the selected-pointer characterization applied to the empty
blob (no stored pointers resolve; both come out `undefined`). -/
theorem normalizeUserData_selected_witness :
    ((¬ ((((JVal.obj []).getOpt "aiCoach").getOpt "selectedBookId").isString = true ∧
        ((JVal.obj []).getOpt "aiCoach").getOpt "selectedBookId" ∈
          (outBooks (assembleOutput [] [] [] [] JVal.undef JVal.undef
            (lastConfigOf JVal.undef) [] [] [])).map (fun b => b.getOpt "id"))) →
      outSelectedBookId (assembleOutput [] [] [] [] JVal.undef JVal.undef
        (lastConfigOf JVal.undef) [] [] []) = JVal.undef) ∧
      ((outSelectedBookId (assembleOutput [] [] [] [] JVal.undef JVal.undef
          (lastConfigOf JVal.undef) [] [] [])).truthy = false →
        outSelectedChapterId (assembleOutput [] [] [] [] JVal.undef JVal.undef
          (lastConfigOf JVal.undef) [] [] []) = JVal.undef) ∧
      ((outSelectedBookId (assembleOutput [] [] [] [] JVal.undef JVal.undef
          (lastConfigOf JVal.undef) [] [] [])).truthy = true →
        (¬ ((((JVal.obj []).getOpt "aiCoach").getOpt "selectedChapterId").isString = true ∧
            (((JVal.obj []).getOpt "aiCoach").getOpt "selectedChapterId").truthy = true ∧
            ∃ ch ∈ outChapters (assembleOutput [] [] [] [] JVal.undef JVal.undef
              (lastConfigOf JVal.undef) [] [] []),
              ch.getOpt "bookId" = outSelectedBookId (assembleOutput [] [] [] [] JVal.undef
                JVal.undef (lastConfigOf JVal.undef) [] [] []) ∧
                ch.getOpt "id" =
                  ((JVal.obj []).getOpt "aiCoach").getOpt "selectedChapterId")) →
        outSelectedChapterId (assembleOutput [] [] [] [] JVal.undef JVal.undef
            (lastConfigOf JVal.undef) [] [] []) =
          ((outChapters (assembleOutput [] [] [] [] JVal.undef JVal.undef
              (lastConfigOf JVal.undef) [] [] [])).find?
              (fun ch => decide (ch.getOpt "bookId" = outSelectedBookId
                (assembleOutput [] [] [] [] JVal.undef JVal.undef
                  (lastConfigOf JVal.undef) [] [] [])))).elim
            JVal.undef (fun ch => ch.getOpt "id")) := by
  exact normalizeUserData_selected "T".data (JVal.obj [])
    (assembleOutput [] [] [] [] JVal.undef JVal.undef (lastConfigOf JVal.undef) [] [] [])
    (by decide)

/-! ## Claim C1 -/

theorem synthId_inj :
    ∀ j, j < 16 → ∀ k, k < 16 → synthId j = synthId k → j = k := by
  decide

theorem normQLoop_bounds (n : ℕ) (rows : List JVal) :
    ∀ out : List GenQuestion, ∀ usedIds : List (List Char),
      out.length ≤ n →
      (∀ q ∈ out, q.question ≠ [] ∧ q.question.length ≤ 500) →
      (normQLoop n rows out usedIds).length ≤ n ∧
        (∀ q ∈ normQLoop n rows out usedIds, q.question ≠ [] ∧ q.question.length ≤ 500) := by
  induction rows with
  | nil =>
    intro out usedIds hlen hq
    exact ⟨hlen, hq⟩
  | cons row rest ih =>
    intro out usedIds hlen hq
    rw [normQLoop]
    split
    · exact ⟨hlen, hq⟩
    · next hlt =>
      split
      · exact ih out usedIds hlen hq
      · next hqne =>
        have hmlt : out.length < n := Nat.lt_of_not_le (by simpa using hlt)
        refine ih _ _ (by simp; omega) ?_
        intro q hq'
        rcases List.mem_append.mp hq' with h | h
        · exact hq q h
        · rcases List.mem_singleton.mp h with rfl
          exact ⟨hqne, clampText_length_le _ _⟩

theorem normQLoop_invariant (n : ℕ) (hn : n ≤ 15) (rows : List JVal)
    (hid : ∀ row ∈ rows, ∀ k, k < n + 1 → 1 ≤ k →
      clampText (row.getOpt "id") 120 ≠ synthId k) :
    ∀ out : List GenQuestion, ∀ usedIds : List (List Char),
      usedIds = out.map GenQuestion.id →
      (out.map GenQuestion.id).Nodup →
      (∀ s ∈ out.map GenQuestion.id,
        (∃ j, 1 ≤ j ∧ j ≤ out.length ∧ s = synthId j) ∨
          (∀ k, k < n + 1 → 1 ≤ k → s ≠ synthId k)) →
      out.length ≤ n →
      (∀ q ∈ out, q.question ≠ [] ∧ q.question.length ≤ 500) →
      (normQLoop n rows out usedIds).length ≤ n ∧
        (∀ q ∈ normQLoop n rows out usedIds, q.question ≠ [] ∧ q.question.length ≤ 500) ∧
        ((normQLoop n rows out usedIds).map GenQuestion.id).Nodup := by
  induction rows with
  | nil =>
    intro out usedIds _ hnodup _ hlen hq
    exact ⟨hlen, hq, hnodup⟩
  | cons row rest ih =>
    intro out usedIds hused hnodup hC hlen hq
    have hidrest : ∀ row ∈ rest, ∀ k, k < n + 1 → 1 ≤ k →
        clampText (row.getOpt "id") 120 ≠ synthId k :=
      fun r hr => hid r (List.mem_cons_of_mem _ hr)
    rw [normQLoop]
    split
    · exact ⟨hlen, hq, hnodup⟩
    · next hlt =>
      split
      · exact ih hidrest out usedIds hused hnodup hC hlen hq
      · next hqne =>
        have hmlt : out.length < n := Nat.lt_of_not_le (by simpa using hlt)
        -- the id chosen for the new entry is fresh
        set newId := chooseId usedIds out.length (clampText (row.getOpt "id") 120) with hnew
        have hfresh : newId ∉ out.map GenQuestion.id := by
          rw [hnew, chooseId]
          split
          · -- synthetic id: cannot collide with any already-used id
            intro hmem
            rcases hC _ hmem with ⟨j, hj1, hj2, hj3⟩ | hns
            · have : j = out.length + 1 :=
                synthId_inj j (by omega) (out.length + 1) (by omega) hj3.symm
              omega
            · exact hns (out.length + 1) (by omega) (by omega) rfl
          · -- provider id: the loop checked it against `usedIds`
            next hcond =>
            intro hmem
            apply hcond
            right
            rw [hused]
            exact List.elem_eq_true_of_mem hmem
        have hC' : ∀ s ∈ (out ++ [(⟨newId, clampText (row.getOpt "question") 500,
              clampText (row.getOpt "rubric") 2000⟩ : GenQuestion)]).map GenQuestion.id,
            (∃ j, 1 ≤ j ∧ j ≤ (out ++ [(⟨newId, clampText (row.getOpt "question") 500,
              clampText (row.getOpt "rubric") 2000⟩ : GenQuestion)]).length ∧ s = synthId j) ∨
              (∀ k, k < n + 1 → 1 ≤ k → s ≠ synthId k) := by
          intro s hs
          rw [List.map_append, List.mem_append] at hs
          rcases hs with hs | hs
          · rcases hC s hs with ⟨j, hj1, hj2, hj3⟩ | hns
            · refine Or.inl ⟨j, hj1, ?_, hj3⟩
              simp
              omega
            · exact Or.inr hns
          · simp only [List.map_cons, List.map_nil, List.mem_singleton] at hs
            subst hs
            rw [hnew, chooseId]
            split
            · exact Or.inl ⟨out.length + 1, by omega, by simp, rfl⟩
            · exact Or.inr (fun k hk hk1 => hid row (List.mem_cons_self row rest) k hk hk1)
        have hres := ih hidrest
          (out ++ [⟨newId, clampText (row.getOpt "question") 500,
            clampText (row.getOpt "rubric") 2000⟩])
          (usedIds ++ [newId])
          (by rw [hused, List.map_append]; rfl)
          (by
            rw [List.map_append]
            simp only [List.map_cons, List.map_nil]
            rw [List.nodup_append]
            exact ⟨hnodup, List.nodup_singleton _, by simpa using hfresh⟩)
          hC'
          (by simp; omega)
          (by
            intro q hq'
            rcases List.mem_append.mp hq' with h | h
            · exact hq q h
            · rcases List.mem_singleton.mp h with rfl
              exact ⟨hqne, clampText_length_le _ _⟩)
        exact hres

/-- C1 counterexample: a provider payload whose first entry carries the id
`q2` and whose second entry carries no id.  The synthetic id assigned to the
second kept entry is also `q2`, so the response of a well-formed request with
`count = 2` has a duplicated id. -/
theorem normalizeQuestions_counterexample :
    ((normalizeQuestions (JVal.obj [("questions", JVal.arr
        [JVal.obj [("id", js "q2"), ("question", js "a")],
         JVal.obj [("question", js "b")]])]) 2).map GenQuestion.id) =
      ["q2".data, "q2".data] ∧
      ¬ (((normalizeQuestions (JVal.obj [("questions", JVal.arr
        [JVal.obj [("id", js "q2"), ("question", js "a")],
         JVal.obj [("question", js "b")]])]) 2).map GenQuestion.id).Nodup) := by
  constructor
  · decide
  · decide

/-- C1 (amended): for a well-formed request (`count = N` is clamped to
`1–15`) and **every** parsed provider payload, the normalized response has at
most `N` questions, each with a non-empty question of at most 500 characters;
a synthetic id `q<n>` is assigned to any entry missing or duplicating an id,
and the response's ids are pairwise distinct **provided** no provider-supplied
id is itself of the synthetic form `q<k>` (`1 ≤ k ≤ N`) — without that proviso
a provider id can collide with a later synthetic id. -/
theorem normalizeQuestions_amended (parsed : JVal) (n : ℕ) (hn : n ≤ 15) :
    (normalizeQuestions parsed n).length ≤ n ∧
      (∀ q ∈ normalizeQuestions parsed n, q.question ≠ [] ∧ q.question.length ≤ 500) ∧
      ((∀ row ∈ ((parsed.getOpt "questions").asArray?).getD [], ∀ k, k < n + 1 → 1 ≤ k →
          clampText (row.getOpt "id") 120 ≠ synthId k) →
        ((normalizeQuestions parsed n).map GenQuestion.id).Nodup) := by
  obtain ⟨h1, h2⟩ := normQLoop_bounds n (((parsed.getOpt "questions").asArray?).getD [])
    [] [] (by simp) (by simp)
  refine ⟨h1, h2, ?_⟩
  intro hid
  exact (normQLoop_invariant n hn _ hid [] [] rfl (by simp) (by simp) (by simp) (by simp)).2.2

/-- C1 witness: the spec's own end-to-end example — `count = 3`, provider
returns one usable question and one empty-text question. -/
theorem normalizeQuestions_amended_witness :
    (normalizeQuestions (JVal.obj [("questions", JVal.arr
        [JVal.obj [("question", js "Why did he leave?"), ("rubric", js "mentions motivation")],
         JVal.obj [("question", js "")]])]) 3).length ≤ 3 ∧
      (∀ q ∈ normalizeQuestions (JVal.obj [("questions", JVal.arr
        [JVal.obj [("question", js "Why did he leave?"), ("rubric", js "mentions motivation")],
         JVal.obj [("question", js "")]])]) 3,
        q.question ≠ [] ∧ q.question.length ≤ 500) ∧
      ((∀ row ∈ (((JVal.obj [("questions", JVal.arr
            [JVal.obj [("question", js "Why did he leave?"),
               ("rubric", js "mentions motivation")],
             JVal.obj [("question", js "")]])]).getOpt "questions").asArray?).getD [],
          ∀ k, k < 3 + 1 → 1 ≤ k → clampText (row.getOpt "id") 120 ≠ synthId k) →
        ((normalizeQuestions (JVal.obj [("questions", JVal.arr
          [JVal.obj [("question", js "Why did he leave?"), ("rubric", js "mentions motivation")],
           JVal.obj [("question", js "")]])]) 3).map GenQuestion.id).Nodup) :=
  normalizeQuestions_amended
    (JVal.obj [("questions", JVal.arr
      [JVal.obj [("question", js "Why did he leave?"), ("rubric", js "mentions motivation")],
       JVal.obj [("question", js "")]])]) 3 (by decide)
